import Mathlib

/-!
Verification of the WDT sender thread state machine (`SenderThread`, from
`src/Sender.h`) and of `FileByteSource::read` (`src/util/FileByteSource.cpp`).

The C++ code is shallowly embedded: every socket / protocol-codec / queue
collaborator result that the sender code branches on is supplied by an
explicit environment record, and each state-handler of the state machine
becomes a pure Lean function from (environment, thread data) to
(next state, updated thread data, observable effects).  Machine integers
are modelled as `Int` (none of the verified paths can overflow 64-bit
quantities, and the C++ code performs no intentional wrap-around on them).
Fatal `WDT_CHECK` assertions in the C++ are modelled as an `Option`/extra
constructor escape (`none` / `checkFail`), never as ordinary control flow.
-/

/-- Error codes used by the sender (subset of wdt `ErrorCodes.h` actually
mentioned by `Sender.h`). -/
inductive ErrorCode
  | OK
  | SOCKET_READ_ERROR
  | SOCKET_WRITE_ERROR
  | PROTOCOL_ERROR
  | CONN_ERROR
  | ABORT
  | NO_PROGRESS
  | BYTE_SOURCE_READ_ERROR
  | INVALID_CHECKPOINT
  | WDT_TIMEOUT
  | VERSION_MISMATCH
  | VERSION_INCOMPATIBLE
  | GLOBAL_CHECKPOINT_ABORT
  | MEMORY_ALLOCATION_ERROR
  | ENCRYPTION_ERROR
deriving DecidableEq, Repr

/-- The sender thread states (`SenderState` in `SenderThread.h`), in the
order of `SenderThread::stateMap_`, plus the terminal `END`. -/
inductive SenderState
  | CONNECT
  | READ_LOCAL_CHECKPOINT
  | SEND_SETTINGS
  | SEND_BLOCKS
  | SEND_DONE_CMD
  | SEND_SIZE_CMD
  | CHECK_FOR_ABORT
  | READ_FILE_CHUNKS
  | READ_RECEIVER_CMD
  | PROCESS_DONE_CMD
  | PROCESS_WAIT_CMD
  | PROCESS_ERR_CMD
  | PROCESS_ABORT_CMD
  | PROCESS_VERSION_MISMATCH
  | END
deriving DecidableEq, Repr

/-- Protocol command bytes (`Protocol::CMD_MAGIC`) that `Sender.h` dispatches
on; `UNKNOWN_CMD` stands for any byte that is none of the named commands. -/
inductive CmdMagic
  | DONE_CMD
  | ERR_CMD
  | WAIT_CMD
  | ABORT_CMD
  | LOCAL_CHECKPOINT_CMD
  | ACK_CMD
  | CHUNKS_CMD
  | SETTINGS_CMD
  | FILE_CMD
  | SIZE_CMD
  | FOOTER_CMD
  | UNKNOWN_CMD
deriving DecidableEq, Repr

/-- A wire checkpoint `{port, numBlocks, lastBlockSeqId,
lastBlockReceivedBytes}` (spec section 3; decoded by
`Protocol::decodeCheckpoints`). -/
structure Checkpoint where
  port : Int
  numBlocks : Int
  lastBlockSeqId : Int
  lastBlockReceivedBytes : Int
deriving DecidableEq, Repr

/-- The footer type selected by `SenderThread::setFooterType`. -/
inductive FooterType
  | NO_FOOTER
  | CHECKSUM_FOOTER
  | ENC_TAG_FOOTER
deriving DecidableEq, Repr

/-- `ProtoNegotiationStatus` from `Sender.h`. -/
inductive ProtoNegotiationStatus
  | V_MISMATCH_WAIT
  | V_MISMATCH_RESOLVED
  | V_MISMATCH_FAILED
deriving DecidableEq, Repr

/-- Funnel status of the cross-thread coordinator (`VERSION_MISMATCH_FUNNEL`). -/
inductive FunnelStatus
  | FUNNEL_START
  | FUNNEL_PROGRESS
  | FUNNEL_END
deriving DecidableEq, Repr

/-- Per-thread mutable data of a `SenderThread` that the verified handlers
read or write: `port_`, `threadProtocolVersion_`,
`threadStats_.{local,remote}ErrorCode`, `numReconnectWithoutProgress_`,
`totalSizeSent_`, `negotiatedProtocol_`. -/
structure ThreadData where
  port : Int
  threadProtocolVersion : Int
  localErrorCode : ErrorCode
  remoteErrorCode : ErrorCode
  numReconnectWithoutProgress : Int
  totalSizeSent : Bool
  negotiatedProtocol : Int
deriving DecidableEq, Repr

/-- Observable side effects of one state-handler call on the shared
collaborators: whether `transferHistory.markAllAcknowledged()` ran, which
checkpoint (if any) was handed to `transferHistory.setLocalCheckpoint`,
which error (if any) was broadcast via `wdtParent_->abort(...)`, which
global checkpoints were dispatched to
`transferHistoryController_->handleGlobalCheckpoint`, and whether
`wdtParent_->setFileChunksInfo` ran. -/
structure Effects where
  markedAllAck : Bool := false
  localCkptSet : Option Checkpoint := none
  abortBroadcast : Option ErrorCode := none
  globalCkpts : List Checkpoint := []
  fileChunksInfoSet : Bool := false
deriving DecidableEq, Repr

/-- No collaborator effects. -/
def noEff : Effects := {}

/-- Result of one state handler: next state, updated thread data, effects. -/
structure StepOut where
  next : SenderState
  td : ThreadData
  eff : Effects
deriving DecidableEq, Repr

/-! ## `SenderThread::connectToReceiver` (Sender.h lines 304-355) -/

/-- Result of `connectToReceiver`: whether a socket was returned (non-null),
the final `errCode`, the number of `socket->connect()` attempts made, and the
number of `usleep` back-off sleeps performed. -/
structure ConnRes where
  gotSocket : Bool
  errCode : ErrorCode
  attempts : Nat
  sleeps : Nat
deriving DecidableEq, Repr

/-- The retry loop `for (int i = 1; i <= maxRetries; ++i)` of
`connectToReceiver`.  `connectAt i` is the result of `socket->connect()` on
attempt `i`, `abortAt i` the thread abort code checked after attempt `i`.
Falling off the loop (`i > m`) is only reached when every attempt failed with
a retryable error, in which case `errCode != OK` and the function returns
`nullptr` with `CONN_ERROR`. -/
def connectLoop (connectAt abortAt : Nat → ErrorCode) (m : Nat) (i : Nat)
    (attempts sleeps : Nat) : ConnRes :=
  if i > m then ⟨false, .CONN_ERROR, attempts, sleeps⟩
  else
    let e := connectAt i
    if e = .OK then ⟨true, .OK, attempts + 1, sleeps⟩
    else if e = .CONN_ERROR then ⟨false, .CONN_ERROR, attempts + 1, sleeps⟩
    else if abortAt i ≠ .OK then ⟨false, .ABORT, attempts + 1, sleeps⟩
    else if i ≠ m then
      -- sleep between attempts but not after the last
      connectLoop connectAt abortAt m (i + 1) (attempts + 1) (sleeps + 1)
    else
      connectLoop connectAt abortAt m (i + 1) (attempts + 1) sleeps
termination_by m + 1 - i
decreasing_by
  all_goals omega

/-- `SenderThread::connectToReceiver`: clamps `options_.max_retries` to at
least 1, then runs the retry loop. -/
def connectToReceiver (connectAt abortAt : Nat → ErrorCode)
    (maxRetriesOpt : Int) : ConnRes :=
  let m : Nat := if maxRetriesOpt < 1 then 1 else maxRetriesOpt.toNat
  connectLoop connectAt abortAt m 1 0 0

/-- Loop invariant: starting at attempt `i ≤ m` with counters `a ≥ s`, the
final counters satisfy `attempts = sleeps + (a - s) + 1` and `sleeps ≥ s`:
exactly one sleep separates consecutive attempts and none follows the last. -/
theorem connectLoop_sleeps (connectAt abortAt : Nat → ErrorCode) (m : Nat) :
    ∀ i a s, i ≤ m → s ≤ a →
      (connectLoop connectAt abortAt m i a s).attempts
        = (connectLoop connectAt abortAt m i a s).sleeps + (a - s) + 1 ∧
      s ≤ (connectLoop connectAt abortAt m i a s).sleeps ∧
      (connectLoop connectAt abortAt m i a s).attempts ≤ a + (m - i) + 1 := by
  intro i
  induction' hi : m + 1 - i using Nat.strong_induction_on with n ih generalizing i
  intro a s him hsa
  rw [connectLoop]
  simp only [gt_iff_lt]
  rw [if_neg (by omega)]
  by_cases h1 : connectAt i = .OK
  · simp [h1]; omega
  · rw [if_neg h1]
    by_cases h2 : connectAt i = .CONN_ERROR
    · simp [h2]; omega
    · rw [if_neg h2]
      by_cases h3 : abortAt i ≠ .OK
      · simp [h3]; omega
      · rw [if_neg h3]
        by_cases h4 : i ≠ m
        · rw [if_pos h4]
          have hrec := ih (m + 1 - (i + 1)) (by omega) (i + 1) rfl (a + 1) (s + 1)
            (by omega) (by omega)
          refine ⟨?_, ?_, ?_⟩ <;> omega
        · rw [if_neg h4]
          have hmi : i = m := by omega
          rw [connectLoop]
          rw [if_pos (by omega)]
          simp only
          omega

/-- Unfolding of the first loop iteration when `1 ≤ m` and the very first
`connect()` returns `CONN_ERROR`: the loop stops at once. -/
theorem connectLoop_first_conn_error (connectAt abortAt : Nat → ErrorCode)
    (m : Nat) (hm : 1 ≤ m) (h : connectAt 1 = .CONN_ERROR) :
    connectLoop connectAt abortAt m 1 0 0 = ⟨false, .CONN_ERROR, 1, 0⟩ := by
  rw [connectLoop]
  rw [if_neg (by omega)]
  simp only [h]
  rfl

/-- C9: `connectToReceiver` clamps `max_retries < 1` to a single attempt,
sleeps exactly between consecutive failed attempts (never after the last
one), and a `CONN_ERROR` from `connect()` stops the retry loop immediately. -/
theorem connectToReceiver_retry_spec (connectAt abortAt : Nat → ErrorCode)
    (maxRetriesOpt : Int) :
    (maxRetriesOpt < 1 →
      (connectToReceiver connectAt abortAt maxRetriesOpt).attempts = 1 ∧
      (connectToReceiver connectAt abortAt maxRetriesOpt).sleeps = 0) ∧
    (connectToReceiver connectAt abortAt maxRetriesOpt).attempts
      = (connectToReceiver connectAt abortAt maxRetriesOpt).sleeps + 1 ∧
    (connectAt 1 = .CONN_ERROR →
      connectToReceiver connectAt abortAt maxRetriesOpt
        = ⟨false, .CONN_ERROR, 1, 0⟩) := by
  have hgoal : connectToReceiver connectAt abortAt maxRetriesOpt
      = connectLoop connectAt abortAt
          (if maxRetriesOpt < 1 then 1 else maxRetriesOpt.toNat) 1 0 0 := rfl
  rw [hgoal]
  set m : Nat := if maxRetriesOpt < 1 then 1 else maxRetriesOpt.toNat with hm
  by_cases hcase : maxRetriesOpt < 1
  · have hm1 : m = 1 := by simp [hm, hcase]
    have h := connectLoop_sleeps connectAt abortAt m 1 0 0 (by omega) (by omega)
    refine ⟨fun _ => ⟨by omega, by omega⟩, by omega, fun hc => ?_⟩
    exact connectLoop_first_conn_error connectAt abortAt m (by omega) hc
  · have hm1 : 1 ≤ m := by
      simp only [hm, if_neg hcase]
      omega
    have h := connectLoop_sleeps connectAt abortAt m 1 0 0 hm1 (by omega)
    refine ⟨fun hc => absurd hc hcase, by omega, fun hc => ?_⟩
    exact connectLoop_first_conn_error connectAt abortAt m hm1 hc

/-- Witness for C9 at a concrete environment: every `connect()` attempt
returns `CONN_ERROR` and `max_retries` is configured as `0`. -/
theorem connectToReceiver_retry_spec_witness :
    (connectToReceiver (fun _ => .CONN_ERROR) (fun _ => .OK) 0).attempts = 1 ∧
    (connectToReceiver (fun _ => .CONN_ERROR) (fun _ => .OK) 0).sleeps = 0 ∧
    connectToReceiver (fun _ => .CONN_ERROR) (fun _ => .OK) 0
      = ⟨false, .CONN_ERROR, 1, 0⟩ := by
  have h := connectToReceiver_retry_spec (fun _ => .CONN_ERROR) (fun _ => .OK) 0
  exact ⟨(h.1 (by norm_num)).1, (h.1 (by norm_num)).2, h.2.2 rfl⟩

/-! ## `SenderThread::readNextReceiverCmd` (Sender.h lines 818-876) -/

/-- Environment of one `readNextReceiverCmd` call: `initialUnacked` is
`socket_->getUnackedBytes()` sampled at entry; for loop iteration `k`
(0-based), `readRes k` is the result of `socket_->read(buf_, 1)`,
`abortCode k` the thread abort code, `readErrCode k` the value of
`socket_->getReadErrCode()`, and `unackedAfter k` the re-queried
`getUnackedBytes()`; `finalReadRes` is the result of the single
`readWithTimeout` performed after the send buffer drains. -/
structure DrainEnv where
  initialUnacked : Int
  readRes : Nat → Int
  abortCode : Nat → ErrorCode
  readErrCode : Nat → ErrorCode
  unackedAfter : Nat → Int
  finalReadRes : Int

/-- Result of `readNextReceiverCmd`: the returned `ErrorCode`, the byte count
of the read that decided the return, and the 1-based index of the loop
iteration (or drain-phase read) that returned.  `checkFail` models a fatal
`WDT_CHECK` (`WDT_CHECK_LT(numRead, 0)` / `WDT_CHECK_GE(numUnackedBytes,
curUnackedBytes)`) firing. -/
inductive DrainRes
  | ret (code : ErrorCode) (lastRead : Int) (iters : Nat)
  | checkFail
deriving DecidableEq, Repr

/-- The `while (true)` retry loop of `readNextReceiverCmd`, plus the final
drain-wait `readWithTimeout` reached by the `curUnackedBytes == 0` break.
`numUnacked` is the current `numUnackedBytes`, `k` the iteration index. -/
def drainLoop (env : DrainEnv) (numUnacked : Int) (k : Nat) : DrainRes :=
  if env.readRes k = 1 then .ret .OK 1 (k + 1)
  else if env.abortCode k ≠ .OK then .ret .ABORT (env.readRes k) (k + 1)
  else if env.readRes k = 0 then .ret .SOCKET_READ_ERROR 0 (k + 1)
  else if 0 < env.readRes k then .checkFail
  else if env.readErrCode k ≠ .WDT_TIMEOUT then
    .ret .SOCKET_READ_ERROR (env.readRes k) (k + 1)
  else if h1 : numUnacked < 0 ∨ env.unackedAfter k < 0 then
    .ret .SOCKET_READ_ERROR (env.readRes k) (k + 1)
  else if h2 : numUnacked < env.unackedAfter k then .checkFail
  else if h3 : env.unackedAfter k = 0 then
    -- break: wait `timeToClearSendBuffer + drain_extra_ms` for the reply
    if env.finalReadRes = 1 then .ret .OK 1 (k + 1)
    else .ret .SOCKET_READ_ERROR env.finalReadRes (k + 1)
  else if h4 : env.unackedAfter k = numUnacked then
    .ret .SOCKET_READ_ERROR (env.readRes k) (k + 1)
  else drainLoop env (env.unackedAfter k) (k + 1)
termination_by numUnacked.toNat
decreasing_by
  push_neg at h1
  omega

/-- `SenderThread::readNextReceiverCmd`. -/
def readNextReceiverCmd (env : DrainEnv) : DrainRes :=
  drainLoop env env.initialUnacked 0

/-- The loop returns `OK` only from a read that yielded exactly one byte. -/
theorem drainLoop_ret_OK_lastRead (env : DrainEnv) (num : Int) (k : Nat) :
    ∀ b i, drainLoop env num k = .ret .OK b i → b = 1 := by
  induction num, k using drainLoop.induct env with
  | case11 numUnacked k c1 c2 c3 c4 c5 c6 c7 c8 c9 ih =>
    intro b i h
    rw [drainLoop] at h
    rw [if_neg c1, if_neg (by simp_all), if_neg c3, if_neg c4,
      if_neg (by simp_all), dif_neg c6, dif_neg c7, dif_neg c8,
      dif_neg c9] at h
    exact ih b i h
  | _ =>
    intro b i h
    rw [drainLoop] at h
    split_ifs at h <;> simp_all

/-- The loop always returns within `numUnacked.toNat + 1` further
iterations: every retry strictly decreases the positive unacked count. -/
theorem drainLoop_iters_bound (env : DrainEnv) (num : Int) (k : Nat) :
    ∀ c b i, drainLoop env num k = .ret c b i → i ≤ k + num.toNat + 1 := by
  induction num, k using drainLoop.induct env with
  | case11 numUnacked k c1 c2 c3 c4 c5 c6 c7 c8 c9 ih =>
    intro c b i h
    rw [drainLoop] at h
    rw [if_neg c1, if_neg (by simp_all), if_neg c3, if_neg c4,
      if_neg (by simp_all), dif_neg c6, dif_neg c7, dif_neg c8,
      dif_neg c9] at h
    have := ih c b i h
    push_neg at c6
    omega
  | _ =>
    intro c b i h
    rw [drainLoop] at h
    split_ifs at h <;> simp_all <;> omega

/-- C2 (amended): `readNextReceiverCmd` returns OK only from a read that
yielded exactly one command byte; absent a pending abort, a clean EOF or a
read error other than a timeout returns `SOCKET_READ_ERROR` at once; after a
timeout, a *positive* unacked-byte count that did not change since the
previous sample returns `SOCKET_READ_ERROR` (when the count has dropped to
zero the code instead performs one final bounded `readWithTimeout`, which may
return OK); and the retry loop runs at most `initialUnacked + 1` iterations,
so it cannot run forever. -/
theorem readNextReceiverCmd_drain_spec (env : DrainEnv) :
    (∀ b i, readNextReceiverCmd env = .ret .OK b i → b = 1) ∧
    (env.readRes 0 = 0 → env.abortCode 0 = .OK →
      readNextReceiverCmd env = .ret .SOCKET_READ_ERROR 0 1) ∧
    (env.readRes 0 < 0 → env.abortCode 0 = .OK →
      env.readErrCode 0 ≠ .WDT_TIMEOUT →
      readNextReceiverCmd env = .ret .SOCKET_READ_ERROR (env.readRes 0) 1) ∧
    (env.readRes 0 < 0 → env.abortCode 0 = .OK →
      env.readErrCode 0 = .WDT_TIMEOUT →
      0 < env.initialUnacked → env.unackedAfter 0 = env.initialUnacked →
      readNextReceiverCmd env = .ret .SOCKET_READ_ERROR (env.readRes 0) 1) ∧
    (∀ c b i, readNextReceiverCmd env = .ret c b i →
      i ≤ env.initialUnacked.toNat + 1) := by
  refine ⟨?_, ?_, ?_, ?_, ?_⟩
  · intro b i h
    exact drainLoop_ret_OK_lastRead env env.initialUnacked 0 b i h
  · intro h0 habort
    rw [readNextReceiverCmd, drainLoop]
    rw [if_neg (by omega), if_neg (by simp [habort]), if_pos h0]
  · intro h0 habort herr
    rw [readNextReceiverCmd, drainLoop]
    rw [if_neg (by omega), if_neg (by simp [habort]), if_neg (by omega),
      if_neg (by omega), if_pos herr]
  · intro h0 habort herr hpos hsame
    rw [readNextReceiverCmd, drainLoop]
    rw [if_neg (by omega), if_neg (by simp [habort]), if_neg (by omega),
      if_neg (by omega), if_neg (by simp [herr]),
      dif_neg (by push_neg; omega), dif_neg (by omega),
      dif_neg (by omega), dif_pos hsame]
  · intro c b i h
    have := drainLoop_iters_bound env env.initialUnacked 0 c b i h
    omega

/-- Witness environment for C2: first read times out with unacked bytes
falling 2 → 1, second read times out with the count stuck at 1. -/
def drainSpecEnv : DrainEnv :=
  { initialUnacked := 2
    readRes := fun _ => -1
    abortCode := fun _ => .OK
    readErrCode := fun _ => .WDT_TIMEOUT
    unackedAfter := fun _ => 1
    finalReadRes := 1 }

/-- Witness for C2 at `drainSpecEnv`: the stuck positive count gives up with
`SOCKET_READ_ERROR` after 2 iterations, within the proved bound. -/
theorem readNextReceiverCmd_drain_spec_witness :
    readNextReceiverCmd drainSpecEnv = .ret .SOCKET_READ_ERROR (-1) 2 ∧
    (∀ b i, readNextReceiverCmd drainSpecEnv = .ret .OK b i → b = 1) ∧
    (∀ c b i, readNextReceiverCmd drainSpecEnv = .ret c b i →
      i ≤ drainSpecEnv.initialUnacked.toNat + 1) := by
  have h := readNextReceiverCmd_drain_spec drainSpecEnv
  refine ⟨?_, h.1, h.2.2.2.2⟩
  rw [readNextReceiverCmd, drainLoop]
  rw [if_neg (by norm_num [drainSpecEnv]), if_neg (by simp [drainSpecEnv]),
    if_neg (by norm_num [drainSpecEnv]), if_neg (by norm_num [drainSpecEnv]),
    if_neg (by simp [drainSpecEnv]), dif_neg (by norm_num [drainSpecEnv]),
    dif_neg (by norm_num [drainSpecEnv]), dif_neg (by norm_num [drainSpecEnv]),
    dif_neg (by norm_num [drainSpecEnv])]
  rw [drainLoop]
  rw [if_neg (by norm_num [drainSpecEnv]), if_neg (by simp [drainSpecEnv]),
    if_neg (by norm_num [drainSpecEnv]), if_neg (by norm_num [drainSpecEnv]),
    if_neg (by simp [drainSpecEnv]), dif_neg (by norm_num [drainSpecEnv]),
    dif_neg (by norm_num [drainSpecEnv]), dif_neg (by norm_num [drainSpecEnv]),
    dif_pos (by norm_num [drainSpecEnv])]
  rfl

/-- Environment refuting C2 as stated: the unacked count is 0 at entry and
still 0 (unchanged) after the timeout, yet the code does not give up — it
breaks to the final drain read, which succeeds. -/
def drainCexEnv : DrainEnv :=
  { initialUnacked := 0
    readRes := fun _ => -1
    abortCode := fun _ => .OK
    readErrCode := fun _ => .WDT_TIMEOUT
    unackedAfter := fun _ => 0
    finalReadRes := 1 }

/-- Environment refuting C2 as stated on the EOF clause: a clean EOF read
with a pending thread abort returns `ABORT`, not `SOCKET_READ_ERROR`. -/
def drainCexEnvAbort : DrainEnv :=
  { initialUnacked := 5
    readRes := fun _ => 0
    abortCode := fun _ => .ABORT
    readErrCode := fun _ => .OK
    unackedAfter := fun _ => 0
    finalReadRes := 1 }

/-- C2 counterexample: (a) after a timeout the queried unacked count equals
the previously recorded count (both 0), yet `readNextReceiverCmd` returns
`OK`, not `SOCKET_READ_ERROR`; (b) a read yielding clean EOF returns `ABORT`
(abort takes precedence), not `SOCKET_READ_ERROR`. -/
theorem readNextReceiverCmd_claim_counterexample :
    (drainCexEnv.unackedAfter 0 = drainCexEnv.initialUnacked ∧
      drainCexEnv.readErrCode 0 = .WDT_TIMEOUT ∧
      readNextReceiverCmd drainCexEnv = .ret .OK 1 1) ∧
    (drainCexEnvAbort.readRes 0 = 0 ∧
      readNextReceiverCmd drainCexEnvAbort = .ret .ABORT 0 1) := by
  constructor
  · refine ⟨rfl, rfl, ?_⟩
    rw [readNextReceiverCmd, drainLoop]
    rw [if_neg (by norm_num [drainCexEnv]), if_neg (by simp [drainCexEnv]),
      if_neg (by norm_num [drainCexEnv]), if_neg (by norm_num [drainCexEnv]),
      if_neg (by simp [drainCexEnv]), dif_neg (by norm_num [drainCexEnv]),
      dif_neg (by norm_num [drainCexEnv]), dif_pos (by norm_num [drainCexEnv]),
      if_pos (by norm_num [drainCexEnv])]
  · refine ⟨rfl, ?_⟩
    rw [readNextReceiverCmd, drainLoop]
    rw [if_neg (by norm_num [drainCexEnvAbort]),
      if_pos (by simp [drainCexEnvAbort])]
    rfl

/-! ## `SenderThread::readAndVerifySpuriousCheckpoint` (Sender.h 915-945) -/

/-- Environment of `readAndVerifySpuriousCheckpoint`:
`maxLocalCheckpointLength` is
`Protocol::getMaxLocalCheckpointLength(threadProtocolVersion_)`, `numRead`
the result of `socket_->read(buf_ + 1, checkpointLen - 1)` (the command byte
is already in `buf_[0]`), and `decoded` the result of
`Protocol::decodeCheckpoints` (`none` = decode failure). -/
structure SpuriousEnv where
  maxLocalCheckpointLength : Int
  numRead : Int
  decoded : Option (List Checkpoint)

/-- Result of the verification: the returned `ErrorCode` and the error code
(if any) recorded into `threadStats_` by `setLocalErrorCode`. -/
structure VerifyOut where
  code : ErrorCode
  errSet : Option ErrorCode
deriving DecidableEq, Repr

/-- `SenderThread::readAndVerifySpuriousCheckpoint`.  Note the C++ accepts a
decoded checkpoint whose `port` matches, `numBlocks == 0` and
`lastBlockReceivedBytes == 0` — it does NOT test `lastBlockSeqId`. -/
def readAndVerifySpuriousCheckpoint (td : ThreadData) (env : SpuriousEnv) :
    VerifyOut :=
  if env.numRead ≠ env.maxLocalCheckpointLength - 1 then
    ⟨.SOCKET_READ_ERROR, some .SOCKET_READ_ERROR⟩
  else
    match env.decoded with
    | some [cp] =>
      if cp.port = td.port ∧ cp.numBlocks = 0 ∧ cp.lastBlockReceivedBytes = 0
      then ⟨.OK, none⟩
      else ⟨.PROTOCOL_ERROR, some .PROTOCOL_ERROR⟩
    | _ => ⟨.PROTOCOL_ERROR, some .PROTOCOL_ERROR⟩

/-! ## `SenderThread::readLocalCheckPoint` (Sender.h 400-455) -/

/-- Environment of `readLocalCheckPoint`: `maxLocalCheckpointLength` is
`Protocol::getMaxLocalCheckpointLength(threadProtocolVersion_)` and is the
byte count the handler asks `socket_->read` for; `numRead` is the read's
result; `decoded` the `Protocol::decodeCheckpoints` result; and
`setLocalCheckpointRes` the `ErrorCode` that
`transferHistory.setLocalCheckpoint(checkpoint)` returns if it is called. -/
structure ReadLocalCkptEnv where
  maxLocalCheckpointLength : Int
  numRead : Int
  decoded : Option (List Checkpoint)
  setLocalCheckpointRes : ErrorCode

/-- `SenderThread::readLocalCheckPoint`. -/
def readLocalCheckPoint (env : ReadLocalCkptEnv) (td : ThreadData) : StepOut :=
  if env.numRead ≠ env.maxLocalCheckpointLength then
    ⟨.CONNECT,
      { td with
        localErrorCode := .SOCKET_READ_ERROR
        numReconnectWithoutProgress := td.numReconnectWithoutProgress + 1 },
      noEff⟩
  else
    match env.decoded with
    | some [cp] =>
      if cp.port ≠ td.port then
        ⟨.END, { td with localErrorCode := .PROTOCOL_ERROR }, noEff⟩
      else if cp.numBlocks = -1 then
        -- receiver failed while sending DONE cmd
        ⟨.READ_RECEIVER_CMD, td, noEff⟩
      else if env.setLocalCheckpointRes = .INVALID_CHECKPOINT then
        ⟨.END, { td with localErrorCode := .PROTOCOL_ERROR },
          { localCkptSet := some cp }⟩
      else if env.setLocalCheckpointRes = .NO_PROGRESS then
        ⟨.SEND_SETTINGS,
          { td with numReconnectWithoutProgress :=
              td.numReconnectWithoutProgress + 1 },
          { localCkptSet := some cp }⟩
      else
        ⟨.SEND_SETTINGS, { td with numReconnectWithoutProgress := 0 },
          { localCkptSet := some cp }⟩
    | _ => ⟨.END, { td with localErrorCode := .PROTOCOL_ERROR }, noEff⟩

/-- The validity filter of `readLocalCheckPoint`, written from the spec's
words: the bytes must decode to exactly one checkpoint whose port equals this
thread's port.  Used to compare the code paths against the spec (C4). -/
def validLocalCheckpoint (td : ThreadData) (decoded : Option (List Checkpoint)) :
    Option Checkpoint :=
  match decoded with
  | some [cp] => if cp.port = td.port then some cp else none
  | _ => none

/-! ## `SenderThread::connect` (Sender.h 357-398) -/

/-- Environment of the `CONNECT` state handler: whether `socket_` is
non-null, its `getNonRetryableErrCode()`, `options_.max_transfer_retries`,
the inputs of the nested `connectToReceiver` call, and the thread abort code
consulted when that call returns `ABORT`. -/
structure ConnectEnv where
  hasSocket : Bool
  socketNonRetryableErr : ErrorCode
  maxTransferRetries : Int
  connectAt : Nat → ErrorCode
  abortAt : Nat → ErrorCode
  maxRetriesOpt : Int
  threadAbortCode : ErrorCode

/-- `SenderThread::connect` (state handler for `CONNECT`). -/
def connect (env : ConnectEnv) (td : ThreadData) : StepOut :=
  if env.hasSocket ∧ env.socketNonRetryableErr ≠ .OK then
    ⟨.END, { td with localErrorCode := env.socketNonRetryableErr }, noEff⟩
  else if td.numReconnectWithoutProgress ≥ env.maxTransferRetries then
    ⟨.END, { td with localErrorCode := .NO_PROGRESS }, noEff⟩
  else
    let code := (connectToReceiver env.connectAt env.abortAt
      env.maxRetriesOpt).errCode
    if code = .ABORT then
      if env.threadAbortCode = .VERSION_MISMATCH then
        ⟨.PROCESS_VERSION_MISMATCH, { td with localErrorCode := .ABORT },
          noEff⟩
      else ⟨.END, { td with localErrorCode := .ABORT }, noEff⟩
    else if code ≠ .OK then
      ⟨.END, { td with localErrorCode := code }, noEff⟩
    else
      -- reset() clears totalSizeSent_ and the thread stats error code
      if td.localErrorCode ≠ .OK then
        ⟨.READ_LOCAL_CHECKPOINT,
          { td with totalSizeSent := false, localErrorCode := .OK }, noEff⟩
      else
        ⟨.SEND_SETTINGS,
          { td with totalSizeSent := false, localErrorCode := .OK }, noEff⟩

/-! ## `SenderThread::processAbortCmd` (Sender.h 1017-1055) -/

/-- Environment of `processAbortCmd`: `kAbortLength` is
`Protocol::kAbortLength`, `numRead` the result of reading that many bytes,
the next three fields the values decoded by `Protocol::decodeAbort`, and
`negotiateProtocolRes` the result of
`Protocol::negotiateProtocol(negotiatedProtocol, threadProtocolVersion_)`. -/
structure AbortCmdEnv where
  kAbortLength : Int
  numRead : Int
  negotiatedProtocol : Int
  remoteError : ErrorCode
  checkpointSeqId : Int
  negotiateProtocolRes : Int

/-- `SenderThread::processAbortCmd`. -/
def processAbortCmd (env : AbortCmdEnv) (td : ThreadData) : StepOut :=
  let td1 := { td with localErrorCode := ErrorCode.ABORT }
  if env.numRead ≠ env.kAbortLength then
    -- can not read checkpoint, but still must exit because of ABORT
    ⟨.END, td1, noEff⟩
  else
    let td2 := { td1 with remoteErrorCode := env.remoteError }
    if env.remoteError = .VERSION_MISMATCH then
      if env.negotiateProtocolRes = env.negotiatedProtocol then
        ⟨.PROCESS_VERSION_MISMATCH,
          { td2 with negotiatedProtocol := env.negotiatedProtocol },
          { abortBroadcast := some env.remoteError }⟩
      else
        ⟨.END, { td2 with remoteErrorCode := .VERSION_INCOMPATIBLE },
          { abortBroadcast := some env.remoteError }⟩
    else ⟨.END, td2, { abortBroadcast := some env.remoteError }⟩

/-! ## `SenderThread::sendSettings` (Sender.h 457-482) -/

/-- Environment of `sendSettings`: whether `wdtParent_->isSendFileChunks()`,
the encoded length `off`, `Protocol::kMinBufLength`, and the socket write
result. -/
structure SendSettingsEnv where
  sendFileChunks : Bool
  encodedOff : Int
  kMinBufLength : Int
  writeRes : Int

/-- `SenderThread::sendSettings`. -/
def sendSettings (env : SendSettingsEnv) (td : ThreadData) : StepOut :=
  let toWrite := if env.sendFileChunks then env.kMinBufLength
    else env.encodedOff
  if env.writeRes ≠ toWrite then
    ⟨.CONNECT, { td with localErrorCode := .SOCKET_WRITE_ERROR }, noEff⟩
  else if env.sendFileChunks then ⟨.READ_FILE_CHUNKS, td, noEff⟩
  else ⟨.SEND_BLOCKS, td, noEff⟩

/-! ## `SenderThread::sendOneByteSource` (Sender.h 515-645) -/

/-- Per-thread transfer stats fields touched by `sendOneByteSource`. -/
structure Stats where
  headerBytes : Int := 0
  dataBytes : Int := 0
  effectiveBytes : Int := 0
  numBlocks : Int := 0
  failedAttempts : Int := 0
  localErrorCode : ErrorCode := .OK
deriving DecidableEq, Repr

/-- One iteration of the `while (!source->finished())` streaming loop, as
seen from the sender: the chunk byte count returned by `source->read`, the
socket write result for it, and the thread abort code sampled after the
write.  `readError` is `source->hasError()` becoming true, which breaks out
of the loop. -/
inductive ChunkEv
  | data (size writeRes : Int) (abortCode : ErrorCode)
  | readError
deriving DecidableEq, Repr

/-- Result of the streaming loop: fell through to the size check
(`completed`, with the accumulated stats, `actualSize`, and
`totalThrottlerBytes`), returned early from inside the loop, or hit the
`WDT_CHECK(buffer && size > 0)` assertion. -/
inductive ChunkLoopRes
  | completed (stats : Stats) (actualSize totalThrottlerBytes : Int)
  | earlyReturn (stats : Stats)
  | checkFail
deriving DecidableEq, Repr

/-- The streaming loop of `sendOneByteSource`.  `inst` is
`throttlerInstanceBytes` (seeded with the header byte count), `total` is
`totalThrottlerBytes`. -/
def sendChunks (hasThrottler : Bool) :
    List ChunkEv → Stats → Int → Int → Int → ChunkLoopRes
  | [], stats, actual, _inst, total => .completed stats actual total
  | .readError :: _, stats, actual, _inst, total =>
    .completed stats actual total
  | .data sz w ab :: rest, stats, actual, inst, total =>
    if sz ≤ 0 then .checkFail
    else
      let inst1 := if hasThrottler then inst + sz else inst
      let total1 := if hasThrottler then total + inst1 else total
      let inst2 := if hasThrottler then 0 else inst1
      if ab ≠ .OK then
        .earlyReturn { stats with
          localErrorCode := .ABORT
          failedAttempts := stats.failedAttempts + 1 }
      else if w ≠ sz then
        .earlyReturn { stats with
          localErrorCode := .SOCKET_WRITE_ERROR
          failedAttempts := stats.failedAttempts + 1 }
      else
        sendChunks hasThrottler rest
          { stats with dataBytes := stats.dataBytes + w } (actual + w)
          inst2 total1

/-- Environment of `sendOneByteSource`: the encoded FILE-header length `off`
and its write result, the source's declared size (`source->getSize()`), the
streaming-loop events, whether a throttler is configured, the footer type
selected at thread start, and the FOOTER frame length and write result. -/
structure SendSourceEnv where
  headerLen : Int
  headerWriteRes : Int
  expectedSize : Int
  chunks : List ChunkEv
  hasThrottler : Bool
  footerType : FooterType
  footerLen : Int
  footerWriteRes : Int

/-- Success epilogue of `sendOneByteSource`: `stats.setLocalErrorCode(OK)`,
`stats.incrNumBlocks()`, `stats.addEffectiveBytes(header, data)`. -/
def finalizeStats (s : Stats) : Stats :=
  { s with
    localErrorCode := .OK
    numBlocks := s.numBlocks + 1
    effectiveBytes := s.effectiveBytes + s.headerBytes + s.dataBytes }

/-- `SenderThread::sendOneByteSource`; `none` models a fatal `WDT_CHECK`. -/
def sendOneByteSource (env : SendSourceEnv) : Option Stats :=
  if env.headerWriteRes ≠ env.headerLen then
    some { localErrorCode := .SOCKET_WRITE_ERROR, failedAttempts := 1 }
  else
    match sendChunks env.hasThrottler env.chunks
      { headerBytes := env.headerWriteRes } 0 env.headerWriteRes 0 with
    | .checkFail => none
    | .earlyReturn s => some s
    | .completed s actual total =>
      if actual ≠ env.expectedSize then
        -- can only happen if the sender could not read the complete source
        some { s with
          localErrorCode := .BYTE_SOURCE_READ_ERROR
          failedAttempts := s.failedAttempts + 1 }
      else if env.hasThrottler ∧ 0 < actual ∧
          total ≠ actual + env.headerWriteRes then
        none  -- WDT_CHECK(totalThrottlerBytes == actualSize + headerBytes)
      else if env.footerType ≠ .NO_FOOTER then
        if env.footerWriteRes ≠ env.footerLen then
          some { s with
            localErrorCode := .SOCKET_WRITE_ERROR
            failedAttempts := s.failedAttempts + 1 }
        else
          some (finalizeStats
            { s with headerBytes := s.headerBytes + env.footerLen })
      else some (finalizeStats s)

/-! ## `SenderThread::sendBlocks` (Sender.h 484-513) -/

/-- Environment of `sendBlocks`:
`Protocol::RECEIVER_PROGRESS_REPORT_VERSION`, the directory queue's
discovery status, whether `getNextSource` produced a source, the
`sendOneByteSource` inputs for that source, and the
`transferHistory.addSource` result. -/
structure SendBlocksEnv where
  receiverProgressReportVersion : Int
  fileDiscoveryFinished : Bool
  hasNextSource : Bool
  sourceEnv : SendSourceEnv
  addSourceOk : Bool

/-- `SenderThread::sendBlocks`. -/
def sendBlocks (env : SendBlocksEnv) (td : ThreadData) : Option StepOut :=
  if td.threadProtocolVersion ≥ env.receiverProgressReportVersion ∧
      ¬td.totalSizeSent ∧ env.fileDiscoveryFinished then
    some ⟨.SEND_SIZE_CMD, td, noEff⟩
  else if ¬env.hasNextSource then some ⟨.SEND_DONE_CMD, td, noEff⟩
  else
    match sendOneByteSource env.sourceEnv with
    | none => none
    | some stats =>
      if ¬env.addSourceOk then
        -- global checkpoint received for this thread; stop
        some ⟨.END, { td with localErrorCode := .CONN_ERROR }, noEff⟩
      else if stats.localErrorCode ≠ .OK then
        some ⟨.CHECK_FOR_ABORT, td, noEff⟩
      else some ⟨.SEND_BLOCKS, td, noEff⟩

/-! ## `SenderThread::sendSizeCmd` / `sendDoneCmd` / `checkForAbort`
(Sender.h 647-703) -/

/-- A plain length-checked socket write: bytes to write and write result. -/
structure SimpleWriteEnv where
  len : Int
  writeRes : Int

/-- `SenderThread::sendSizeCmd`. -/
def sendSizeCmd (env : SimpleWriteEnv) (td : ThreadData) : StepOut :=
  if env.writeRes ≠ env.len then
    ⟨.CHECK_FOR_ABORT, { td with localErrorCode := .SOCKET_WRITE_ERROR },
      noEff⟩
  else ⟨.SEND_BLOCKS, { td with totalSizeSent := true }, noEff⟩

/-- `SenderThread::sendDoneCmd` (writes `Protocol::kMinBufLength` bytes). -/
def sendDoneCmd (env : SimpleWriteEnv) (td : ThreadData) : StepOut :=
  if env.writeRes ≠ env.len then
    ⟨.CHECK_FOR_ABORT, { td with localErrorCode := .SOCKET_WRITE_ERROR },
      noEff⟩
  else ⟨.READ_RECEIVER_CMD, td, noEff⟩

/-- Environment of `checkForAbort`: the 1-byte read result and the command
byte found. -/
structure CheckAbortEnv where
  readRes : Int
  cmd : CmdMagic

/-- `SenderThread::checkForAbort`. -/
def checkForAbort (env : CheckAbortEnv) (td : ThreadData) : StepOut :=
  if env.readRes ≠ 1 then ⟨.CONNECT, td, noEff⟩
  else if env.cmd ≠ .ABORT_CMD then ⟨.CONNECT, td, noEff⟩
  else ⟨.PROCESS_ABORT_CMD, td, noEff⟩

/-! ## `SenderThread::readFileChunks` (Sender.h 705-816) -/

/-- One iteration of the chunk-list read loop of `readFileChunks`: either a
short read of the 4-byte length prefix, a short read of the chunk buffer, a
`decodeFileChunksInfoList` failure, or a successful decode leaving
`fileChunksInfoList.size()` at `newCount`. -/
inductive ChunkRead
  | shortLenRead
  | shortBufRead
  | decodeFail
  | decoded (newCount : Int)
deriving DecidableEq, Repr

/-- Result of the chunk-list read loop. -/
inductive ChunksLoopRes
  | countOverflow
  | done
  | readErr
  | decodeErr
  | outOfEvents
deriving DecidableEq, Repr

/-- The `while (true)` loop of the CHUNKS branch of `readFileChunks`:
`count` is `fileChunksInfoList.size()`.  `outOfEvents` means the supplied
event prefix ended while the loop still needed socket input (the loop never
touches the transfer history either way). -/
def chunksLoop (numFiles : Int) : List ChunkRead → Int → ChunksLoopRes
  | evs, count =>
    if count > numFiles then .countOverflow
    else if count = numFiles then .done
    else
      match evs with
      | [] => .outOfEvents
      | .shortLenRead :: _ => .readErr
      | .shortBufRead :: _ => .readErr
      | .decodeFail :: _ => .decodeErr
      | .decoded c :: rest => chunksLoop numFiles rest c

/-- Environment of `readFileChunks`: the 1-byte command read result and the
command byte, `wdtParent_->isFileChunksReceived()`, the spurious-checkpoint
sub-environment for the `LOCAL_CHECKPOINT_CMD` branch, and — for the
`CHUNKS_CMD` branch — the `kChunksCmdLen` read result, the decoded
`numFiles`, the loop events, and the final ACK write result. -/
structure ReadFileChunksEnv where
  firstReadRes : Int
  cmd : CmdMagic
  fileChunksReceived : Bool
  spurious : SpuriousEnv
  chunksCmdReadRes : Int
  kChunksCmdLen : Int
  numFiles : Int
  chunkReads : List ChunkRead
  ackWriteRes : Int

/-- Applies the `threadStats_.setLocalErrorCode` recorded by
`readAndVerifySpuriousCheckpoint` to the thread data. -/
def applyVerify (td : ThreadData) (v : VerifyOut) : ThreadData :=
  match v.errSet with
  | some e => { td with localErrorCode := e }
  | none => td

/-- `SenderThread::readFileChunks`; `none` models the run exhausting the
supplied socket-event prefix inside the CHUNKS loop. -/
def readFileChunks (env : ReadFileChunksEnv) (td : ThreadData) :
    Option StepOut :=
  if env.firstReadRes ≠ 1 then
    some ⟨.CHECK_FOR_ABORT, { td with localErrorCode := .SOCKET_READ_ERROR },
      noEff⟩
  else
    match env.cmd with
    | .ABORT_CMD => some ⟨.PROCESS_ABORT_CMD, td, noEff⟩
    | .WAIT_CMD => some ⟨.READ_FILE_CHUNKS, td, noEff⟩
    | .ACK_CMD =>
      if ¬env.fileChunksReceived then
        -- receiver thinks it sent the chunks, but no thread got them
        some ⟨.END, { td with localErrorCode := .PROTOCOL_ERROR }, noEff⟩
      else some ⟨.SEND_BLOCKS, td, noEff⟩
    | .LOCAL_CHECKPOINT_CMD =>
      let v := readAndVerifySpuriousCheckpoint td env.spurious
      let td1 := applyVerify td v
      if v.code = .SOCKET_READ_ERROR then some ⟨.CONNECT, td1, noEff⟩
      else if v.code = .PROTOCOL_ERROR then some ⟨.END, td1, noEff⟩
      else some ⟨.READ_FILE_CHUNKS, td1, noEff⟩
    | .CHUNKS_CMD =>
      if env.chunksCmdReadRes ≠ env.kChunksCmdLen then
        some ⟨.CHECK_FOR_ABORT,
          { td with localErrorCode := .SOCKET_READ_ERROR }, noEff⟩
      else
        match chunksLoop env.numFiles env.chunkReads 0 with
        | .countOverflow =>
          some ⟨.END, { td with localErrorCode := .PROTOCOL_ERROR }, noEff⟩
        | .readErr =>
          some ⟨.CHECK_FOR_ABORT,
            { td with localErrorCode := .SOCKET_READ_ERROR }, noEff⟩
        | .decodeErr =>
          some ⟨.END, { td with localErrorCode := .PROTOCOL_ERROR }, noEff⟩
        | .outOfEvents => none
        | .done =>
          if env.ackWriteRes ≠ 1 then
            some ⟨.CHECK_FOR_ABORT,
              { td with localErrorCode := .SOCKET_WRITE_ERROR },
              { fileChunksInfoSet := true }⟩
          else some ⟨.SEND_BLOCKS, td, { fileChunksInfoSet := true }⟩
    | _ =>
      some ⟨.END, { td with localErrorCode := .PROTOCOL_ERROR }, noEff⟩

/-! ## `SenderThread::readReceiverCmd` (Sender.h 878-913) -/

/-- Environment of `readReceiverCmd`: the drain-loop inputs of
`readNextReceiverCmd`, the command byte read, and the spurious-checkpoint
sub-environment for the `LOCAL_CHECKPOINT_CMD` branch. -/
structure ReadReceiverCmdEnv where
  drain : DrainEnv
  cmd : CmdMagic
  spurious : SpuriousEnv

/-- `SenderThread::readReceiverCmd`; `none` models a fatal `WDT_CHECK`
inside `readNextReceiverCmd`. -/
def readReceiverCmd (env : ReadReceiverCmdEnv) (td : ThreadData) :
    Option StepOut :=
  match readNextReceiverCmd env.drain with
  | .checkFail => none
  | .ret code _ _ =>
    if code ≠ .OK then
      some ⟨.CONNECT, { td with localErrorCode := code }, noEff⟩
    else
      match env.cmd with
      | .ERR_CMD => some ⟨.PROCESS_ERR_CMD, td, noEff⟩
      | .WAIT_CMD => some ⟨.PROCESS_WAIT_CMD, td, noEff⟩
      | .DONE_CMD => some ⟨.PROCESS_DONE_CMD, td, noEff⟩
      | .ABORT_CMD => some ⟨.PROCESS_ABORT_CMD, td, noEff⟩
      | .LOCAL_CHECKPOINT_CMD =>
        let v := readAndVerifySpuriousCheckpoint td env.spurious
        let td1 := applyVerify td v
        if v.code = .SOCKET_READ_ERROR then some ⟨.CONNECT, td1, noEff⟩
        else if v.code = .PROTOCOL_ERROR then some ⟨.END, td1, noEff⟩
        else some ⟨.READ_RECEIVER_CMD, td1, noEff⟩
      | _ =>
        some ⟨.END, { td with localErrorCode := .PROTOCOL_ERROR }, noEff⟩

/-! ## `SenderThread::processDoneCmd` / `processWaitCmd` / `processErrCmd`
(Sender.h 947-1015) -/

/-- Environment of `processDoneCmd`: the (ignored) result of writing the
DONE ack and the result of `socket_->expectEndOfStream()`. -/
structure ProcessDoneEnv where
  doneAckWriteRes : Int
  expectEndOfStreamRes : ErrorCode

/-- `SenderThread::processDoneCmd`: marks everything acknowledged, echoes
DONE, shuts down writes, and expects logical EOF. -/
def processDoneCmd (env : ProcessDoneEnv) (td : ThreadData) : StepOut :=
  if env.expectEndOfStreamRes ≠ .OK then
    ⟨.CONNECT, { td with localErrorCode := env.expectEndOfStreamRes },
      { markedAllAck := true }⟩
  else ⟨.END, td, { markedAllAck := true }⟩

/-- `SenderThread::processWaitCmd`: marks everything acknowledged, loops. -/
def processWaitCmd (td : ThreadData) : StepOut :=
  ⟨.READ_RECEIVER_CMD, td, { markedAllAck := true }⟩

/-- Environment of `processErrCmd`: whether the 2-byte length read and the
checkpoint-list body read succeeded, and the decoded checkpoint list
(`none` = `decodeCheckpoints` failure). -/
structure ProcessErrEnv where
  lenReadOk : Bool
  bodyReadOk : Bool
  decoded : Option (List Checkpoint)

/-- `SenderThread::processErrCmd`: marks everything acknowledged first, then
reads and dispatches the global checkpoints. -/
def processErrCmd (env : ProcessErrEnv) (td : ThreadData) : StepOut :=
  if ¬env.lenReadOk then
    ⟨.CONNECT, { td with localErrorCode := .SOCKET_READ_ERROR },
      { markedAllAck := true }⟩
  else if ¬env.bodyReadOk then
    ⟨.CONNECT, { td with localErrorCode := .SOCKET_READ_ERROR },
      { markedAllAck := true }⟩
  else
    match env.decoded with
    | none =>
      ⟨.END, { td with localErrorCode := .PROTOCOL_ERROR },
        { markedAllAck := true }⟩
    | some cps =>
      ⟨.SEND_BLOCKS, td, { markedAllAck := true, globalCkpts := cps }⟩

/-! ## `SenderThread::processVersionMismatch` (Sender.h 1057-1130) -/

/-- Environment of `processVersionMismatch`: the negotiation status read
after the `WDT_CHECK`s, the funnel status observed on each pass of the
`while (true)` loop (paired with the negotiation status re-read in the
`FUNNEL_END` arm), the result of
`transferHistoryController_->handleVersionMismatch()`, the vector
`wdtParent_->getNegotiatedProtocols()`, and `wdtParent_->getProtocolVersion()`
as read back in the `FUNNEL_END`/`V_MISMATCH_RESOLVED` arm. -/
structure ProcessVMEnv where
  initialNegStatus : ProtoNegotiationStatus
  funnelEvents : List (FunnelStatus × ProtoNegotiationStatus)
  handleVersionMismatchRes : ErrorCode
  negotiatedProtocols : List Int
  parentProtocolVersion : Int

/-- Result of the `negotiatedProtocol` aggregation loop in the
`FUNNEL_START` arm: two threads negotiated different versions (`conflict`,
ends the thread), all proposals agreed on `p` (`ok`), or no positive
proposal existed (`fail`, the `WDT_CHECK_GT(negotiatedProtocol, 0)`). -/
inductive NegoRes
  | conflict
  | ok (p : Int)
  | fail
deriving DecidableEq, Repr

/-- The `for (threadProtocolVersion_ : getNegotiatedProtocols())` fold. -/
def negoFold : List Int → Int → NegoRes
  | [], acc => if 0 < acc then .ok acc else .fail
  | p :: rest, acc =>
    if 0 < p then
      if 0 < acc ∧ acc ≠ p then .conflict
      else negoFold rest p
    else negoFold rest acc

/-- The funnel `while (true)` loop of `processVersionMismatch`; `none`
models a failed `WDT_CHECK` or the supplied funnel-event prefix ending. -/
def vmLoop (env : ProcessVMEnv) (td : ThreadData) :
    List (FunnelStatus × ProtoNegotiationStatus) → Option StepOut
  | [] => none
  | (.FUNNEL_START, _) :: _ =>
    if env.handleVersionMismatchRes ≠ .OK then some ⟨.END, td, noEff⟩
    else
      match negoFold env.negotiatedProtocols 0 with
      | .conflict => some ⟨.END, td, noEff⟩
      | .fail => none
      | .ok p =>
        some ⟨.CONNECT,
          { td with threadProtocolVersion := p, remoteErrorCode := .OK },
          noEff⟩
  | (.FUNNEL_PROGRESS, _) :: rest => vmLoop env td rest
  | (.FUNNEL_END, negStatus) :: _ =>
    if negStatus = .V_MISMATCH_WAIT then none
    else if negStatus = .V_MISMATCH_FAILED then some ⟨.END, td, noEff⟩
    else
      some ⟨.CONNECT,
        { td with
          threadProtocolVersion := env.parentProtocolVersion
          remoteErrorCode := .OK },
        noEff⟩

/-- `SenderThread::processVersionMismatch`. -/
def processVersionMismatch (env : ProcessVMEnv) (td : ThreadData) :
    Option StepOut :=
  if td.localErrorCode ≠ .ABORT then none
  else if env.initialNegStatus = .V_MISMATCH_FAILED then none
  else if env.initialNegStatus = .V_MISMATCH_RESOLVED then
    some ⟨.END, td, noEff⟩
  else vmLoop env td env.funnelEvents

/-! ## The state-machine step (`SenderThread::stateMap_`, Sender.h 295-302,
and the driver loop of `SenderThread::start`) -/

/-- All collaborator inputs one state-machine step may consult. -/
structure StepEnv where
  connectE : ConnectEnv
  readLocalCkptE : ReadLocalCkptEnv
  sendSettingsE : SendSettingsEnv
  sendBlocksE : SendBlocksEnv
  sendDoneE : SimpleWriteEnv
  sendSizeE : SimpleWriteEnv
  checkAbortE : CheckAbortEnv
  readFileChunksE : ReadFileChunksEnv
  readReceiverCmdE : ReadReceiverCmdEnv
  processDoneE : ProcessDoneEnv
  processErrE : ProcessErrEnv
  processAbortE : AbortCmdEnv
  processVME : ProcessVMEnv

/-- One step of the sender state machine: dispatch through
`SenderThread::stateMap_`.  `END` is terminal (the driver loop in
`SenderThread::start` exits); it is modelled as a self-loop with no
effects. -/
def stepState (s : SenderState) (env : StepEnv) (td : ThreadData) :
    Option StepOut :=
  match s with
  | .CONNECT => some (connect env.connectE td)
  | .READ_LOCAL_CHECKPOINT => some (readLocalCheckPoint env.readLocalCkptE td)
  | .SEND_SETTINGS => some (sendSettings env.sendSettingsE td)
  | .SEND_BLOCKS => sendBlocks env.sendBlocksE td
  | .SEND_DONE_CMD => some (sendDoneCmd env.sendDoneE td)
  | .SEND_SIZE_CMD => some (sendSizeCmd env.sendSizeE td)
  | .CHECK_FOR_ABORT => some (checkForAbort env.checkAbortE td)
  | .READ_FILE_CHUNKS => readFileChunks env.readFileChunksE td
  | .READ_RECEIVER_CMD => readReceiverCmd env.readReceiverCmdE td
  | .PROCESS_DONE_CMD => some (processDoneCmd env.processDoneE td)
  | .PROCESS_WAIT_CMD => some (processWaitCmd td)
  | .PROCESS_ERR_CMD => some (processErrCmd env.processErrE td)
  | .PROCESS_ABORT_CMD => some (processAbortCmd env.processAbortE td)
  | .PROCESS_VERSION_MISMATCH => processVersionMismatch env.processVME td
  | .END => some ⟨.END, td, noEff⟩

/-! ## `FileByteSource::read` (util/FileByteSource.cpp 102-161) -/

/-- The `FileByteSource` fields `read` uses: `size_`, `offset_`,
`bytesRead_`, `alignedReadNeeded_`. -/
structure FbsState where
  size : Int
  offset : Int
  bytesRead : Int
  alignedReadNeeded : Bool

/-- Environment of one `FileByteSource::read` call:
`hasErrorOrFinished` is the entry guard `hasError() || finished()` (both are
external `ByteSource` contract methods, declared in `FileByteSource.h`);
`bufSize` is `threadCtx_->getBuffer()->getSize()`; `kDiskBlockSize` the
alignment granule; `preadResult` the value returned by `::pread`; and
`file p` the byte stored at absolute position `p` of the underlying file, so
that a successful `pread(fd, buf, n, seekPos)` returning `r` fills
`buf[i] = file (seekPos + i)` for `i < r`. -/
structure FbsEnv where
  hasErrorOrFinished : Bool
  bufSize : Int
  kDiskBlockSize : Int
  preadResult : Int
  file : Int → Nat

/-- Result of `FileByteSource::read`: the three `nullptr` returns, a
successful return (buffer pointer offset past the alignment remainder, the
returned bytes, the returned `size`, and the updated `bytesRead_`), or the
`WDT_CHECK(alignedReadNeeded_)` assertion firing. -/
inductive FbsRead
  | earlyNull
  | readErr
  | eofNull
  | ok (ptrOff : Int) (bytes : List Nat) (retSize : Int) (newBytesRead : Int)
  | checkFail
deriving DecidableEq, Repr

/-- `offsetRemainder`: alignment remainder of the current logical position
(0 when aligned reads are not needed). -/
def fbsOffsetRemainder (st : FbsState) (env : FbsEnv) : Int :=
  if st.alignedReadNeeded then (st.offset + st.bytesRead) % env.kDiskBlockSize
  else 0

/-- `logicalRead = min(bufferSize - offsetRemainder, size_ - bytesRead_)`. -/
def fbsLogicalRead (st : FbsState) (env : FbsEnv) : Int :=
  min (env.bufSize - fbsOffsetRemainder st env) (st.size - st.bytesRead)

/-- `physicalRead`: `logicalRead` rounded up to a whole number of disk
blocks when aligned reads are needed. -/
def fbsPhysicalRead (st : FbsState) (env : FbsEnv) : Int :=
  if st.alignedReadNeeded then
    ((fbsLogicalRead st env + fbsOffsetRemainder st env
        + env.kDiskBlockSize - 1) / env.kDiskBlockSize) * env.kDiskBlockSize
  else fbsLogicalRead st env

/-- `seekPos`: the block-aligned file position handed to `::pread`. -/
def fbsSeekPos (st : FbsState) (env : FbsEnv) : Int :=
  st.offset + st.bytesRead - fbsOffsetRemainder st env

/-- `FileByteSource::read` (the `physicalRead` request size only affects the
`pread` call itself, which the environment answers through `preadResult`). -/
def fileByteSourceRead (st : FbsState) (env : FbsEnv) : FbsRead :=
  if env.hasErrorOrFinished then .earlyNull
  else if env.preadResult < 0 then .readErr
  else if env.preadResult = 0 then .eofNull
  else if env.preadResult - fbsOffsetRemainder st env
      > fbsLogicalRead st env then
    -- `size = numRead - offsetRemainder` exceeds `logicalRead`: O_DIRECT
    -- padding; clamp to `logicalRead`
    if ¬st.alignedReadNeeded then .checkFail
    else
      .ok (fbsOffsetRemainder st env)
        ((List.range (fbsLogicalRead st env).toNat).map
          (fun j => env.file (fbsSeekPos st env + fbsOffsetRemainder st env + j)))
        (fbsLogicalRead st env)
        (st.bytesRead + fbsLogicalRead st env)
  else
    .ok (fbsOffsetRemainder st env)
      ((List.range (env.preadResult - fbsOffsetRemainder st env).toNat).map
        (fun j => env.file (fbsSeekPos st env + fbsOffsetRemainder st env + j)))
      (env.preadResult - fbsOffsetRemainder st env)
      (st.bytesRead + (env.preadResult - fbsOffsetRemainder st env))

/-- The pread argument position simplifies to the logical position. -/
theorem fbsSeekPos_add_remainder (st : FbsState) (env : FbsEnv) (j : Int) :
    fbsSeekPos st env + fbsOffsetRemainder st env + j
      = st.offset + st.bytesRead + j := by
  rw [fbsSeekPos]; ring

/-- C8: whenever `FileByteSource::read` returns a buffer, the returned size
never exceeds the remaining logical bytes `size_ - bytesRead_` of the source
(the clamp `size = logicalRead` discards any O_DIRECT padding the physical
read brought in), the returned pointer is offset past the alignment
remainder of the current logical position, and the returned bytes are
exactly the file's logical bytes starting at `offset_ + bytesRead_` — so the
CRC32C folded over `(buffer, size)` in `sendOneByteSource` covers exactly
the logical bytes of the block, never padded bytes. -/
theorem fileByteSourceRead_logical_bytes (st : FbsState) (env : FbsEnv)
    (ptrOff : Int) (bytes : List Nat) (retSize newBytesRead : Int)
    (h : fileByteSourceRead st env
      = .ok ptrOff bytes retSize newBytesRead) :
    retSize ≤ st.size - st.bytesRead ∧
    ptrOff = fbsOffsetRemainder st env ∧
    bytes = (List.range retSize.toNat).map
      (fun j => env.file (st.offset + st.bytesRead + j)) ∧
    newBytesRead = st.bytesRead + retSize := by
  rw [fileByteSourceRead] at h
  split_ifs at h with h1 h2 h3 h4 h5
  all_goals cases h
  · refine ⟨min_le_right _ _, rfl, ?_, rfl⟩
    simp only [fbsSeekPos_add_remainder]
  · refine ⟨?_, rfl, ?_, rfl⟩
    · have hlog : fbsLogicalRead st env ≤ st.size - st.bytesRead :=
        min_le_right _ _
      omega
    · simp only [fbsSeekPos_add_remainder]

/-- Concrete witness layout for C8: an O_DIRECT source block of 5 logical
bytes starting at aligned offset 8, disk block size 8, where `pread` returns
a full 8-byte block; the returned size is clamped to 5 and the bytes are
file positions 8..12. -/
def fbsWitnessSt : FbsState :=
  { size := 5, offset := 8, bytesRead := 0, alignedReadNeeded := true }

/-- Environment for the C8 witness. -/
def fbsWitnessEnv : FbsEnv :=
  { hasErrorOrFinished := false
    bufSize := 16
    kDiskBlockSize := 8
    preadResult := 8
    file := fun p => p.toNat }

/-- Witness for C8: evaluating the model at the concrete trailing-chunk
layout and applying the theorem to it. -/
theorem fileByteSourceRead_logical_bytes_witness :
    fileByteSourceRead fbsWitnessSt fbsWitnessEnv
      = .ok 0 [8, 9, 10, 11, 12] 5 5 ∧
    (5 : Int) ≤ fbsWitnessSt.size - fbsWitnessSt.bytesRead ∧
    (0 : Int) = fbsOffsetRemainder fbsWitnessSt fbsWitnessEnv ∧
    [8, 9, 10, 11, 12] = (List.range (5 : Int).toNat).map
      (fun j => fbsWitnessEnv.file
        (fbsWitnessSt.offset + fbsWitnessSt.bytesRead + j)) ∧
    (5 : Int) = fbsWitnessSt.bytesRead + 5 := by
  have heval : fileByteSourceRead fbsWitnessSt fbsWitnessEnv
      = .ok 0 [8, 9, 10, 11, 12] 5 5 := by
    decide
  exact ⟨heval,
    fileByteSourceRead_logical_bytes fbsWitnessSt fbsWitnessEnv
      0 [8, 9, 10, 11, 12] 5 5 heval⟩

/-! ## Claim C4: READ_LOCAL_CHECKPOINT behaviour -/

/-- C4: `readLocalCheckPoint` asks the socket for exactly
`getMaxLocalCheckpointLength(version)` bytes (anything else than that exact
count is a short read and cannot proceed); given the full read, bytes that do
not decode to exactly one checkpoint whose port matches this thread give
`PROTOCOL_ERROR` and `END`; and a decoded `numBlocks == -1` goes to
`READ_RECEIVER_CMD` with the thread data untouched (no error recorded) and
without handing the checkpoint to the transfer history. -/
theorem readLocalCheckPoint_spec (env : ReadLocalCkptEnv) (td : ThreadData) :
    (env.numRead ≠ env.maxLocalCheckpointLength →
      readLocalCheckPoint env td = ⟨.CONNECT,
        { td with
          localErrorCode := .SOCKET_READ_ERROR
          numReconnectWithoutProgress := td.numReconnectWithoutProgress + 1 },
        noEff⟩) ∧
    (env.numRead = env.maxLocalCheckpointLength →
      validLocalCheckpoint td env.decoded = none →
      readLocalCheckPoint env td
        = ⟨.END, { td with localErrorCode := .PROTOCOL_ERROR }, noEff⟩) ∧
    (∀ cp, env.numRead = env.maxLocalCheckpointLength →
      validLocalCheckpoint td env.decoded = some cp → cp.numBlocks = -1 →
      readLocalCheckPoint env td = ⟨.READ_RECEIVER_CMD, td, noEff⟩) := by
  refine ⟨fun hne => by rw [readLocalCheckPoint, if_pos hne], ?_, ?_⟩
  · intro heq hval
    rw [readLocalCheckPoint, if_neg (by simp [heq])]
    rcases hd : env.decoded with _ | cps
    · rfl
    · rcases cps with _ | ⟨cp, rest⟩
      · rfl
      · rcases rest with _ | ⟨c2, r2⟩
        · simp only [validLocalCheckpoint, hd] at hval
          split_ifs at hval with hport
          dsimp only
          exact if_pos (by simpa using hport)
        · rfl
  · intro cp heq hval hminus
    rw [readLocalCheckPoint, if_neg (by simp [heq])]
    rcases hd : env.decoded with _ | cps
    · simp [validLocalCheckpoint, hd] at hval
    · rcases cps with _ | ⟨cp1, rest⟩
      · simp [validLocalCheckpoint, hd] at hval
      · rcases rest with _ | ⟨c2, r2⟩
        · simp only [validLocalCheckpoint, hd] at hval
          split_ifs at hval with hport
          cases hval
          dsimp only
          rw [if_neg (by simpa using hport), if_pos hminus]
        · simp [validLocalCheckpoint, hd] at hval

/-- Concrete environment for the C4 witness: a full-length read decoding to
one checkpoint `{port 7, numBlocks -1, 0, 0}` for a thread on port 7. -/
def c4Env : ReadLocalCkptEnv :=
  { maxLocalCheckpointLength := 21
    numRead := 21
    decoded := some [⟨7, -1, 0, 0⟩]
    setLocalCheckpointRes := .OK }

/-- Thread data for the C4 witness. -/
def c4Td : ThreadData :=
  { port := 7
    threadProtocolVersion := 30
    localErrorCode := .SOCKET_READ_ERROR
    remoteErrorCode := .OK
    numReconnectWithoutProgress := 0
    totalSizeSent := false
    negotiatedProtocol := -1 }

/-- Witness for C4: the `numBlocks == -1` sentinel transitions to
`READ_RECEIVER_CMD` with no error recorded and no history update. -/
theorem readLocalCheckPoint_spec_witness :
    readLocalCheckPoint c4Env c4Td = ⟨.READ_RECEIVER_CMD, c4Td, noEff⟩ ∧
    (readLocalCheckPoint { c4Env with numRead := 3 } c4Td).td.localErrorCode
      = .SOCKET_READ_ERROR := by
  constructor
  · exact (readLocalCheckPoint_spec c4Env c4Td).2.2 ⟨7, -1, 0, 0⟩ rfl
      (by decide) rfl
  · rw [(readLocalCheckPoint_spec { c4Env with numRead := 3 } c4Td).1
      (by decide)]

/-! ## Claim C5: the no-progress counter -/

/-- C5 (amended): in `READ_LOCAL_CHECKPOINT` the counter
`numReconnectWithoutProgress` is incremented iff the checkpoint read was
short (in which case `setLocalCheckpoint` is not even called) or the read
was full, valid, not the `-1` sentinel, and `setLocalCheckpoint` returned
`NO_PROGRESS`; and on entry to `CONNECT` with the counter at
`maxTransferRetries` or more, the thread ends with local error `NO_PROGRESS`
provided no existing socket carries a non-retryable error (that check runs
first and ends the thread with the socket's error instead). -/
theorem reconnect_counter_spec (env : ReadLocalCkptEnv) (cenv : ConnectEnv)
    (td : ThreadData) (hnn : 0 ≤ td.numReconnectWithoutProgress) :
    ((readLocalCheckPoint env td).td.numReconnectWithoutProgress
        = td.numReconnectWithoutProgress + 1 ↔
      (env.numRead ≠ env.maxLocalCheckpointLength ∨
        (∃ cp, validLocalCheckpoint td env.decoded = some cp ∧
          cp.numBlocks ≠ -1 ∧ env.setLocalCheckpointRes = .NO_PROGRESS))) ∧
    (cenv.maxTransferRetries ≤ td.numReconnectWithoutProgress →
      ¬(cenv.hasSocket = true ∧ cenv.socketNonRetryableErr ≠ .OK) →
      connect cenv td
        = ⟨.END, { td with localErrorCode := .NO_PROGRESS }, noEff⟩) := by
  constructor
  · by_cases hne : env.numRead = env.maxLocalCheckpointLength
    · rw [readLocalCheckPoint, if_neg (by simp [hne])]
      rcases hd : env.decoded with _ | cps
      · simp [validLocalCheckpoint, hd]
        omega
      · rcases cps with _ | ⟨cp, rest⟩
        · simp [validLocalCheckpoint, hd]
          omega
        · rcases rest with _ | ⟨c2, r2⟩
          · simp only [validLocalCheckpoint, hd]
            by_cases hport : cp.port = td.port
            · rw [if_neg (by simpa using hport), if_pos hport]
              by_cases hm1 : cp.numBlocks = -1
              · rw [if_pos hm1]
                simp [hne, hm1]
              · rw [if_neg hm1]
                by_cases hinv : env.setLocalCheckpointRes = .INVALID_CHECKPOINT
                · rw [if_pos hinv]
                  simp [hne, hm1, hinv]
                · rw [if_neg hinv]
                  by_cases hnp : env.setLocalCheckpointRes = .NO_PROGRESS
                  · rw [if_pos hnp]
                    simp [hne, hm1, hnp]
                  · rw [if_neg hnp]
                    have hzero : ¬(0 : Int) = td.numReconnectWithoutProgress + 1 := by
                      omega
                    simp [hne, hm1, hnp, hzero]
            · rw [if_pos (by simpa using hport)]
              simp [hne, hport]
          · simp [validLocalCheckpoint, hd]
            omega
    · rw [readLocalCheckPoint, if_pos hne]
      simp [hne]
  · intro hge hsock
    rw [connect, if_neg hsock, if_pos (by omega)]

/-- Environment for the C5 counterexample: the checkpoint read comes up
short (`numRead 3` of 21). -/
def c5CexEnv : ReadLocalCkptEnv :=
  { maxLocalCheckpointLength := 21
    numRead := 3
    decoded := none
    setLocalCheckpointRes := .OK }

/-- Thread data for the C5 counterexample. -/
def c5CexTd : ThreadData :=
  { port := 7
    threadProtocolVersion := 30
    localErrorCode := .OK
    remoteErrorCode := .OK
    numReconnectWithoutProgress := 0
    totalSizeSent := false
    negotiatedProtocol := -1 }

/-- Connect environment for the C5 counterexample: an existing socket with a
non-retryable error while the counter (5) is at `maxTransferRetries` (3). -/
def c5CexConnEnv : ConnectEnv :=
  { hasSocket := true
    socketNonRetryableErr := .CONN_ERROR
    maxTransferRetries := 3
    connectAt := fun _ => .OK
    abortAt := fun _ => .OK
    maxRetriesOpt := 3
    threadAbortCode := .OK }

/-- C5 counterexample: (a) a short checkpoint read increments
`numReconnectWithoutProgress` although `setLocalCheckpoint` was never called
(no checkpoint reached the history), so "incremented iff `setLocalCheckpoint`
returns NO_PROGRESS" fails; (b) entering `CONNECT` with the counter ≥
`maxTransferRetries` but an existing socket carrying a non-retryable error
ends with that socket error, not `NO_PROGRESS`. -/
theorem reconnect_counter_counterexample :
    ((readLocalCheckPoint c5CexEnv c5CexTd).td.numReconnectWithoutProgress
        = c5CexTd.numReconnectWithoutProgress + 1 ∧
      (readLocalCheckPoint c5CexEnv c5CexTd).eff.localCkptSet = none) ∧
    (c5CexConnEnv.maxTransferRetries
        ≤ ({ c5CexTd with
            numReconnectWithoutProgress := 5 } : ThreadData).numReconnectWithoutProgress ∧
      connect c5CexConnEnv { c5CexTd with numReconnectWithoutProgress := 5 }
        = ⟨.END, { c5CexTd with
            numReconnectWithoutProgress := 5
            localErrorCode := .CONN_ERROR }, noEff⟩ ∧
      ErrorCode.CONN_ERROR ≠ ErrorCode.NO_PROGRESS) := by
  refine ⟨⟨by decide, by decide⟩, by decide, ?_, by decide⟩
  rw [connect, if_pos (by decide)]
  decide

/-! ## Claim C3: spurious LOCAL_CHECKPOINT filtering -/

/-- Checkpoint environment for the C3 counterexample: a full mid-stream read
decoding to one checkpoint `{port 5, numBlocks 0, lastBlockSeqId 7,
lastBlockReceivedBytes 0}`. -/
def c3CexEnv : SpuriousEnv :=
  { maxLocalCheckpointLength := 21
    numRead := 20
    decoded := some [⟨5, 0, 7, 0⟩] }

/-- Thread data for the C3 counterexample (port 5). -/
def c3CexTd : ThreadData :=
  { port := 5
    threadProtocolVersion := 30
    localErrorCode := .OK
    remoteErrorCode := .OK
    numReconnectWithoutProgress := 0
    totalSizeSent := false
    negotiatedProtocol := -1 }

/-- C3 counterexample: a mid-stream LOCAL_CHECKPOINT decoding to the single
checkpoint `{port, 0, 7, 0}` — whose `lastBlockSeqId` is 7, not 0 — is still
accepted and ignored (`OK`, no error recorded), because the code never
examines `lastBlockSeqId`; the claim's "if and only if … lastBlockSeqId=0 …
any other decoded content yields PROTOCOL_ERROR" is false. -/
theorem spurious_checkpoint_seqid_counterexample :
    readAndVerifySpuriousCheckpoint c3CexTd c3CexEnv = ⟨.OK, none⟩ ∧
    c3CexEnv.decoded = some [⟨5, 0, 7, 0⟩] ∧
    (⟨5, 0, 7, 0⟩ : Checkpoint) ≠ ⟨5, 0, 0, 0⟩ := by
  refine ⟨by decide, rfl, by decide⟩

/-- Environment for the C5 witness: full read, valid checkpoint
`{7, 2, 3, 4}`, `setLocalCheckpoint` reporting `NO_PROGRESS`. -/
def c5WEnv : ReadLocalCkptEnv :=
  { maxLocalCheckpointLength := 21
    numRead := 21
    decoded := some [⟨7, 2, 3, 4⟩]
    setLocalCheckpointRes := .NO_PROGRESS }

/-- Thread data for the C5 witness. -/
def c5WTd : ThreadData :=
  { port := 7
    threadProtocolVersion := 30
    localErrorCode := .OK
    remoteErrorCode := .OK
    numReconnectWithoutProgress := 0
    totalSizeSent := false
    negotiatedProtocol := -1 }

/-- Connect environment for the C5 witness (no existing socket). -/
def c5WConnEnv : ConnectEnv :=
  { hasSocket := false
    socketNonRetryableErr := .OK
    maxTransferRetries := 3
    connectAt := fun _ => .OK
    abortAt := fun _ => .OK
    maxRetriesOpt := 3
    threadAbortCode := .OK }

/-- Witness for C5 (amended): a NO_PROGRESS checkpoint increments the
counter, and a thread entering CONNECT with the counter at the limit and no
socket error ends with `NO_PROGRESS`. -/
theorem reconnect_counter_spec_witness :
    (readLocalCheckPoint c5WEnv c5WTd).td.numReconnectWithoutProgress
      = c5WTd.numReconnectWithoutProgress + 1 ∧
    connect c5WConnEnv { c5WTd with numReconnectWithoutProgress := 5 }
      = ⟨.END,
        { c5WTd with
          numReconnectWithoutProgress := 5
          localErrorCode := .NO_PROGRESS }, noEff⟩ := by
  constructor
  · exact ((reconnect_counter_spec c5WEnv c5WConnEnv c5WTd (by decide)).1).mpr
      (Or.inr ⟨⟨7, 2, 3, 4⟩, by decide, by decide, rfl⟩)
  · exact (reconnect_counter_spec c5WEnv c5WConnEnv
      { c5WTd with numReconnectWithoutProgress := 5 } (by decide)).2
      (by decide) (by decide)

/-- `readAndVerifySpuriousCheckpoint` has exactly three possible outputs. -/
theorem readAndVerifySpuriousCheckpoint_cases (td : ThreadData)
    (e : SpuriousEnv) :
    readAndVerifySpuriousCheckpoint td e = ⟨.OK, none⟩ ∨
    readAndVerifySpuriousCheckpoint td e
      = ⟨.SOCKET_READ_ERROR, some .SOCKET_READ_ERROR⟩ ∨
    readAndVerifySpuriousCheckpoint td e
      = ⟨.PROTOCOL_ERROR, some .PROTOCOL_ERROR⟩ := by
  unfold readAndVerifySpuriousCheckpoint
  repeat' split
  all_goals simp


/-- With a full mid-stream read, `readAndVerifySpuriousCheckpoint` returns
either `OK` (frame ignored) or `PROTOCOL_ERROR`. -/
theorem readAndVerifySpuriousCheckpoint_full_read (td : ThreadData)
    (e : SpuriousEnv) (hlen : e.numRead = e.maxLocalCheckpointLength - 1) :
    readAndVerifySpuriousCheckpoint td e = ⟨.OK, none⟩ ∨
    readAndVerifySpuriousCheckpoint td e
      = ⟨.PROTOCOL_ERROR, some .PROTOCOL_ERROR⟩ := by
  rw [readAndVerifySpuriousCheckpoint, if_neg (by simp [hlen])]
  repeat' split
  all_goals simp

/-- C3 (amended): a LOCAL_CHECKPOINT frame received mid-stream (in
`READ_RECEIVER_CMD` or `READ_FILE_CHUNKS`) is treated as valid and ignored
(thread data unchanged, the previous state resumed) if and only if it
decodes to exactly one checkpoint with this thread's port, `numBlocks = 0`
and `lastBlockReceivedBytes = 0` — `lastBlockSeqId` is NOT examined; any
other decoded content yields `PROTOCOL_ERROR` and a transition to `END`. -/
theorem spurious_checkpoint_filter_spec (td : ThreadData)
    (renv : ReadReceiverCmdEnv) (fenv : ReadFileChunksEnv) (b : Int) (i : Nat)
    (hcmd : renv.cmd = .LOCAL_CHECKPOINT_CMD)
    (hdrain : readNextReceiverCmd renv.drain = .ret .OK b i)
    (hfcmd : fenv.cmd = .LOCAL_CHECKPOINT_CMD)
    (hfirst : fenv.firstReadRes = 1)
    (henv : fenv.spurious = renv.spurious)
    (hlen : renv.spurious.numRead
      = renv.spurious.maxLocalCheckpointLength - 1) :
    ((readAndVerifySpuriousCheckpoint td renv.spurious).code = .OK ↔
      (∃ cp, renv.spurious.decoded = some [cp] ∧ cp.port = td.port ∧
        cp.numBlocks = 0 ∧ cp.lastBlockReceivedBytes = 0)) ∧
    ((readAndVerifySpuriousCheckpoint td renv.spurious).code = .OK →
      readReceiverCmd renv td = some ⟨.READ_RECEIVER_CMD, td, noEff⟩ ∧
      readFileChunks fenv td = some ⟨.READ_FILE_CHUNKS, td, noEff⟩) ∧
    ((readAndVerifySpuriousCheckpoint td renv.spurious).code ≠ .OK →
      (readAndVerifySpuriousCheckpoint td renv.spurious).code
        = .PROTOCOL_ERROR ∧
      readReceiverCmd renv td
        = some ⟨.END, { td with localErrorCode := .PROTOCOL_ERROR }, noEff⟩ ∧
      readFileChunks fenv td
        = some ⟨.END, { td with localErrorCode := .PROTOCOL_ERROR }, noEff⟩) := by
  refine ⟨?_, ?_, ?_⟩
  · rw [readAndVerifySpuriousCheckpoint, if_neg (by simp [hlen])]
    rcases hd : renv.spurious.decoded with _ | cps
    · simp
    · rcases cps with _ | ⟨cp, rest⟩
      · simp
      · rcases rest with _ | ⟨c2, r2⟩
        · dsimp only
          split_ifs with hc
          · exact iff_of_true rfl ⟨cp, rfl, hc.1, hc.2.1, hc.2.2⟩
          · refine iff_of_false (by simp) ?_
            rintro ⟨cp2, hcp, hp, hn, hl⟩
            simp only [Option.some.injEq, List.cons.injEq, and_true] at hcp
            subst hcp
            exact hc ⟨hp, hn, hl⟩
        · simp
  · intro hOK
    rcases readAndVerifySpuriousCheckpoint_cases td renv.spurious
      with hv | hv | hv
    · constructor
      · simp [readReceiverCmd, hdrain, hcmd, hv, applyVerify]
      · simp [readFileChunks, hfirst, hfcmd, henv, hv, applyVerify]
    · rw [hv] at hOK; cases hOK
    · rw [hv] at hOK; cases hOK
  · intro hne
    rcases readAndVerifySpuriousCheckpoint_full_read td renv.spurious hlen
      with hv | hv
    · rw [hv] at hne; simp at hne
    · refine ⟨by rw [hv], ?_, ?_⟩
      · simp [readReceiverCmd, hdrain, hcmd, hv, applyVerify]
      · simp [readFileChunks, hfirst, hfcmd, henv, hv, applyVerify]

/-- Spurious-checkpoint environment for the C3 witness: the frame decodes to
`{port 5, 0, 0, 0}`. -/
def c3WSpur : SpuriousEnv :=
  { maxLocalCheckpointLength := 21
    numRead := 20
    decoded := some [⟨5, 0, 0, 0⟩] }

/-- Drain environment for the C3 witness: the first read returns the
command byte at once. -/
def c3WDrain : DrainEnv :=
  { initialUnacked := 0
    readRes := fun _ => 1
    abortCode := fun _ => .OK
    readErrCode := fun _ => .OK
    unackedAfter := fun _ => 0
    finalReadRes := 1 }

/-- `readReceiverCmd` environment for the C3 witness. -/
def c3WRenv : ReadReceiverCmdEnv :=
  { drain := c3WDrain
    cmd := .LOCAL_CHECKPOINT_CMD
    spurious := c3WSpur }

/-- `readFileChunks` environment for the C3 witness. -/
def c3WFenv : ReadFileChunksEnv :=
  { firstReadRes := 1
    cmd := .LOCAL_CHECKPOINT_CMD
    fileChunksReceived := false
    spurious := c3WSpur
    chunksCmdReadRes := 0
    kChunksCmdLen := 10
    numFiles := 0
    chunkReads := []
    ackWriteRes := 1 }

/-- Witness for C3 (amended): the `{port, 0, 0, 0}` frame is ignored and
both mid-stream states resume unchanged. -/
theorem spurious_checkpoint_filter_spec_witness :
    (readAndVerifySpuriousCheckpoint c3CexTd c3WSpur).code = .OK ∧
    readReceiverCmd c3WRenv c3CexTd
      = some ⟨.READ_RECEIVER_CMD, c3CexTd, noEff⟩ ∧
    readFileChunks c3WFenv c3CexTd
      = some ⟨.READ_FILE_CHUNKS, c3CexTd, noEff⟩ := by
  have hdrain : readNextReceiverCmd c3WDrain = .ret .OK 1 1 := by
    rw [readNextReceiverCmd, drainLoop, if_pos (by norm_num [c3WDrain])]
  have h := spurious_checkpoint_filter_spec c3CexTd c3WRenv c3WFenv 1 1
    rfl hdrain rfl rfl rfl (by decide)
  have hOK : (readAndVerifySpuriousCheckpoint c3CexTd c3WRenv.spurious).code
      = .OK := by decide
  exact ⟨hOK, (h.2.1 hOK).1, (h.2.1 hOK).2⟩

/-! ## Claim C6: PROCESS_ABORT_CMD -/

/-- C6: after a full `kAbortLength` read, `processAbortCmd` broadcasts the
decoded `remoteError` to all threads and transitions to
`PROCESS_VERSION_MISMATCH` iff `remoteError == VERSION_MISMATCH` and
`negotiateProtocol` accepts `negotiatedProtocol` (which is then stored),
otherwise `END`; a short read goes directly to `END` without broadcasting
anything. -/
theorem processAbortCmd_spec (env : AbortCmdEnv) (td : ThreadData) :
    (env.numRead ≠ env.kAbortLength →
      processAbortCmd env td
        = ⟨.END, { td with localErrorCode := .ABORT }, noEff⟩) ∧
    (env.numRead = env.kAbortLength →
      (processAbortCmd env td).eff.abortBroadcast = some env.remoteError ∧
      ((processAbortCmd env td).next = .PROCESS_VERSION_MISMATCH ↔
        (env.remoteError = .VERSION_MISMATCH ∧
          env.negotiateProtocolRes = env.negotiatedProtocol)) ∧
      (env.remoteError = .VERSION_MISMATCH →
        env.negotiateProtocolRes = env.negotiatedProtocol →
        (processAbortCmd env td).td.negotiatedProtocol
          = env.negotiatedProtocol) ∧
      ((processAbortCmd env td).next ≠ .PROCESS_VERSION_MISMATCH →
        (processAbortCmd env td).next = .END)) := by
  constructor
  · intro h1
    rw [processAbortCmd, if_pos h1]
  · intro h1
    rw [processAbortCmd, if_neg (by simp [h1])]
    dsimp only
    by_cases h2 : env.remoteError = .VERSION_MISMATCH
    · rw [if_pos h2]
      by_cases h3 : env.negotiateProtocolRes = env.negotiatedProtocol
      · rw [if_pos h3]
        exact ⟨rfl, by simp [h2, h3], fun _ _ => rfl, by simp⟩
      · rw [if_neg h3]
        exact ⟨rfl, by simp [h3], fun _ hc => absurd hc h3, fun _ => rfl⟩
    · rw [if_neg h2]
      exact ⟨rfl, by simp [h2], fun hc => absurd hc h2, fun _ => rfl⟩

/-- Environment for the C6 witness: full abort read carrying
`VERSION_MISMATCH` and `negotiatedProtocol = 28` accepted by
`negotiateProtocol`. -/
def c6WEnv : AbortCmdEnv :=
  { kAbortLength := 13
    numRead := 13
    negotiatedProtocol := 28
    remoteError := .VERSION_MISMATCH
    checkpointSeqId := 0
    negotiateProtocolRes := 28 }

/-- Thread data for the C6 witness. -/
def c6WTd : ThreadData :=
  { port := 5
    threadProtocolVersion := 30
    localErrorCode := .OK
    remoteErrorCode := .OK
    numReconnectWithoutProgress := 0
    totalSizeSent := false
    negotiatedProtocol := -1 }

/-- Witness for C6, including the short-read case. -/
theorem processAbortCmd_spec_witness :
    (processAbortCmd c6WEnv c6WTd).eff.abortBroadcast
      = some c6WEnv.remoteError ∧
    (processAbortCmd c6WEnv c6WTd).next = .PROCESS_VERSION_MISMATCH ∧
    (processAbortCmd c6WEnv c6WTd).td.negotiatedProtocol = 28 ∧
    processAbortCmd { c6WEnv with numRead := 4 } c6WTd
      = ⟨.END, { c6WTd with localErrorCode := .ABORT }, noEff⟩ := by
  have h := (processAbortCmd_spec c6WEnv c6WTd).2 rfl
  exact ⟨h.1, h.2.1.mpr ⟨rfl, rfl⟩, h.2.2.1 rfl rfl,
    (processAbortCmd_spec { c6WEnv with numRead := 4 } c6WTd).1 (by decide)⟩

/-! ## Claim C7: byte-source truncation -/

/-- Completing the streaming loop never touches `failedAttempts`,
`numBlocks` or the error code: those change only on an early return. -/
theorem sendChunks_completed_stats (ht : Bool) :
    ∀ (evs : List ChunkEv) (s : Stats) (a inst total : Int) (s2 : Stats)
      (a2 t2 : Int),
      sendChunks ht evs s a inst total = .completed s2 a2 t2 →
      s2.failedAttempts = s.failedAttempts ∧ s2.numBlocks = s.numBlocks ∧
      s2.localErrorCode = s.localErrorCode ∧ s2.headerBytes = s.headerBytes := by
  intro evs
  induction evs with
  | nil =>
    intro s a inst total s2 a2 t2 h
    cases h
    exact ⟨rfl, rfl, rfl, rfl⟩
  | cons e rest ih =>
    intro s a inst total s2 a2 t2 h
    match e with
    | .readError =>
      cases h
      exact ⟨rfl, rfl, rfl, rfl⟩
    | .data sz w ab =>
      rw [sendChunks] at h
      dsimp only at h
      split_ifs at h
      all_goals
        have h2 := ih _ _ _ _ _ _ _ h
      all_goals exact ⟨h2.1, h2.2.1, h2.2.2.1, h2.2.2.2⟩

/-- C7: when `sendOneByteSource` streams every chunk but the total bytes
read (`actualSize`) differ from the source's declared size, the returned
stats carry `BYTE_SOURCE_READ_ERROR` with one failed attempt and no
completed block, and `sendBlocks` routes this failed block to
`CHECK_FOR_ABORT` (the transfer continues) rather than `END`. -/
theorem sendOneByteSource_truncation_spec (benv : SendBlocksEnv)
    (td : ThreadData) (s : Stats) (actual total : Int)
    (hheader : benv.sourceEnv.headerWriteRes = benv.sourceEnv.headerLen)
    (hrun : sendChunks benv.sourceEnv.hasThrottler benv.sourceEnv.chunks
      { headerBytes := benv.sourceEnv.headerWriteRes } 0
      benv.sourceEnv.headerWriteRes 0 = .completed s actual total)
    (hmm : actual ≠ benv.sourceEnv.expectedSize)
    (hsize : ¬(td.threadProtocolVersion ≥ benv.receiverProgressReportVersion ∧
      ¬td.totalSizeSent = true ∧ benv.fileDiscoveryFinished = true))
    (hnext : benv.hasNextSource = true)
    (hadd : benv.addSourceOk = true) :
    sendOneByteSource benv.sourceEnv
      = some { s with
          localErrorCode := .BYTE_SOURCE_READ_ERROR
          failedAttempts := s.failedAttempts + 1 } ∧
    s.failedAttempts + 1 = 1 ∧ s.numBlocks = 0 ∧
    sendBlocks benv td = some ⟨.CHECK_FOR_ABORT, td, noEff⟩ := by
  have hstats := sendChunks_completed_stats benv.sourceEnv.hasThrottler
    benv.sourceEnv.chunks { headerBytes := benv.sourceEnv.headerWriteRes } 0
    benv.sourceEnv.headerWriteRes 0 s actual total hrun
  have hsrc : sendOneByteSource benv.sourceEnv
      = some { s with
          localErrorCode := .BYTE_SOURCE_READ_ERROR
          failedAttempts := s.failedAttempts + 1 } := by
    rw [sendOneByteSource, if_neg (by simp [hheader]), hrun]
    dsimp only
    rw [if_pos hmm]
  refine ⟨hsrc, by simp [hstats.1], by simp [hstats.2.1], ?_⟩
  rw [sendBlocks, if_neg hsize, if_neg (by simp [hnext]), hsrc]
  dsimp only
  rw [if_neg (by simp [hadd]), if_pos (by simp)]

/-- Source environment for the C7 witness: the source declares 5 bytes but
the stream finishes after 0 bytes (file truncated under us). -/
def c7WSourceEnv : SendSourceEnv :=
  { headerLen := 4
    headerWriteRes := 4
    expectedSize := 5
    chunks := []
    hasThrottler := false
    footerType := .CHECKSUM_FOOTER
    footerLen := 5
    footerWriteRes := 5 }

/-- `sendBlocks` environment for the C7 witness. -/
def c7WEnv : SendBlocksEnv :=
  { receiverProgressReportVersion := 25
    fileDiscoveryFinished := false
    hasNextSource := true
    sourceEnv := c7WSourceEnv
    addSourceOk := true }

/-- Thread data for the C7 witness. -/
def c7WTd : ThreadData :=
  { port := 5
    threadProtocolVersion := 30
    localErrorCode := .OK
    remoteErrorCode := .OK
    numReconnectWithoutProgress := 0
    totalSizeSent := true
    negotiatedProtocol := -1 }

/-- Witness for C7: the truncated source fails the block with
`BYTE_SOURCE_READ_ERROR`, one failed attempt, zero completed blocks, and
`sendBlocks` continues via `CHECK_FOR_ABORT`. -/
theorem sendOneByteSource_truncation_spec_witness :
    sendOneByteSource c7WSourceEnv
      = some { headerBytes := 4, dataBytes := 0, effectiveBytes := 0,
               numBlocks := 0, failedAttempts := 1,
               localErrorCode := .BYTE_SOURCE_READ_ERROR } ∧
    sendBlocks c7WEnv c7WTd = some ⟨.CHECK_FOR_ABORT, c7WTd, noEff⟩ := by
  have h := sendOneByteSource_truncation_spec c7WEnv c7WTd
    { headerBytes := 4 } 0 0 rfl rfl (by decide) (by decide) rfl rfl
  exact ⟨h.1, h.2.2.2⟩

/-! ## Claim C10: ACK in READ_FILE_CHUNKS -/

/-- C10: in `READ_FILE_CHUNKS`, an ACK command with
`isFileChunksReceived() == false` records `PROTOCOL_ERROR` and ends the
thread; ACK leads to `SEND_BLOCKS` only when the file-chunks info was
previously received by some thread. -/
theorem readFileChunks_ack_guard (env : ReadFileChunksEnv) (td : ThreadData)
    (h1 : env.firstReadRes = 1) (h2 : env.cmd = .ACK_CMD) :
    (env.fileChunksReceived = false →
      readFileChunks env td
        = some ⟨.END, { td with localErrorCode := .PROTOCOL_ERROR }, noEff⟩) ∧
    (env.fileChunksReceived = true →
      readFileChunks env td = some ⟨.SEND_BLOCKS, td, noEff⟩) ∧
    (∀ out, readFileChunks env td = some out → out.next = .SEND_BLOCKS →
      env.fileChunksReceived = true) := by
  have hbase : readFileChunks env td
      = if ¬env.fileChunksReceived then
          some ⟨.END, { td with localErrorCode := .PROTOCOL_ERROR }, noEff⟩
        else some ⟨.SEND_BLOCKS, td, noEff⟩ := by
    rw [readFileChunks, if_neg (by simp [h1]), h2]
  refine ⟨fun hf => ?_, fun ht => ?_, fun out hout hnext => ?_⟩
  · rw [hbase, if_pos (by simp [hf])]
  · rw [hbase, if_neg (by simp [ht])]
  · by_cases hc : env.fileChunksReceived
    · exact hc
    · rw [hbase, if_pos (by simpa using hc)] at hout
      cases hout
      simp at hnext

/-- Environment for the C10 witness (ACK with the chunks info received). -/
def c10WEnv : ReadFileChunksEnv :=
  { firstReadRes := 1
    cmd := .ACK_CMD
    fileChunksReceived := true
    spurious := { maxLocalCheckpointLength := 21, numRead := 20, decoded := none }
    chunksCmdReadRes := 10
    kChunksCmdLen := 10
    numFiles := 0
    chunkReads := []
    ackWriteRes := 1 }

/-- Thread data for the C10 witness. -/
def c10WTd : ThreadData :=
  { port := 5
    threadProtocolVersion := 30
    localErrorCode := .OK
    remoteErrorCode := .OK
    numReconnectWithoutProgress := 0
    totalSizeSent := false
    negotiatedProtocol := -1 }

/-- Witness for C10: both sides of the guard at concrete inputs. -/
theorem readFileChunks_ack_guard_witness :
    readFileChunks c10WEnv c10WTd = some ⟨.SEND_BLOCKS, c10WTd, noEff⟩ ∧
    readFileChunks { c10WEnv with fileChunksReceived := false } c10WTd
      = some ⟨.END, { c10WTd with localErrorCode := .PROTOCOL_ERROR },
          noEff⟩ := by
  constructor
  · exact (readFileChunks_ack_guard c10WEnv c10WTd rfl rfl).2.1 rfl
  · exact (readFileChunks_ack_guard
      { c10WEnv with fileChunksReceived := false } c10WTd rfl rfl).1 rfl

/-! ## Claim C1: which states mark sources acknowledged -/

/-- `connect` never touches the transfer history. -/
theorem connect_eff (env : ConnectEnv) (td : ThreadData) :
    (connect env td).eff = noEff := by
  rw [connect]
  dsimp only
  split_ifs <;> rfl

/-- `sendSettings` never touches the transfer history. -/
theorem sendSettings_eff (env : SendSettingsEnv) (td : ThreadData) :
    (sendSettings env td).eff = noEff := by
  rw [sendSettings]
  split_ifs <;> rfl

/-- `sendSizeCmd` never touches the transfer history. -/
theorem sendSizeCmd_eff (env : SimpleWriteEnv) (td : ThreadData) :
    (sendSizeCmd env td).eff = noEff := by
  rw [sendSizeCmd]
  split_ifs <;> rfl

/-- `sendDoneCmd` never touches the transfer history. -/
theorem sendDoneCmd_eff (env : SimpleWriteEnv) (td : ThreadData) :
    (sendDoneCmd env td).eff = noEff := by
  rw [sendDoneCmd]
  split_ifs <;> rfl

/-- `checkForAbort` never touches the transfer history. -/
theorem checkForAbort_eff (env : CheckAbortEnv) (td : ThreadData) :
    (checkForAbort env td).eff = noEff := by
  rw [checkForAbort]
  split_ifs <;> rfl

/-- `readLocalCheckPoint` never calls `markAllAcknowledged` (it only applies
local checkpoints through `setLocalCheckpoint`). -/
theorem readLocalCheckPoint_eff (env : ReadLocalCkptEnv) (td : ThreadData) :
    (readLocalCheckPoint env td).eff.markedAllAck = false := by
  rw [readLocalCheckPoint]
  repeat' split
  all_goals rfl

/-- `sendBlocks` never touches the transfer history's acknowledgement
state. -/
theorem sendBlocks_eff (env : SendBlocksEnv) (td : ThreadData) (out : StepOut)
    (h : sendBlocks env td = some out) : out.eff = noEff := by
  rw [sendBlocks] at h
  repeat' split at h
  all_goals try cases h
  all_goals rfl

/-- `readFileChunks` never marks sources acknowledged and never applies a
local checkpoint (its LOCAL_CHECKPOINT branch only filters the spurious
frame). -/
theorem readFileChunks_eff (env : ReadFileChunksEnv) (td : ThreadData)
    (out : StepOut) (h : readFileChunks env td = some out) :
    out.eff.markedAllAck = false ∧ out.eff.localCkptSet = none := by
  rw [readFileChunks] at h
  repeat' (first | (dsimp only at h) | split at h)
  all_goals try cases h
  all_goals exact ⟨rfl, rfl⟩

/-- `readReceiverCmd` itself never touches the transfer history (marking
happens only in the PROCESS_* states it dispatches to). -/
theorem readReceiverCmd_eff (env : ReadReceiverCmdEnv) (td : ThreadData)
    (out : StepOut) (h : readReceiverCmd env td = some out) :
    out.eff = noEff := by
  rw [readReceiverCmd] at h
  repeat' (first | (dsimp only at h) | split at h)
  all_goals try cases h
  all_goals rfl

/-- `processDoneCmd` marks all acknowledged but never applies a local
checkpoint. -/
theorem processDoneCmd_eff (env : ProcessDoneEnv) (td : ThreadData) :
    (processDoneCmd env td).eff.localCkptSet = none := by
  rw [processDoneCmd]
  split_ifs <;> rfl

/-- `processErrCmd` marks all acknowledged but never applies a local
checkpoint. -/
theorem processErrCmd_eff (env : ProcessErrEnv) (td : ThreadData) :
    (processErrCmd env td).eff.localCkptSet = none := by
  rw [processErrCmd]
  repeat' split
  all_goals rfl

/-- `processAbortCmd` never touches the transfer history (it only reads
`getSourceId` for logging). -/
theorem processAbortCmd_eff (env : AbortCmdEnv) (td : ThreadData) :
    (processAbortCmd env td).eff.markedAllAck = false ∧
    (processAbortCmd env td).eff.localCkptSet = none := by
  rw [processAbortCmd]
  dsimp only
  split_ifs <;> exact ⟨rfl, rfl⟩

/-- The version-mismatch funnel loop never touches the transfer history. -/
theorem vmLoop_eff (env : ProcessVMEnv) (td : ThreadData) :
    ∀ evs out, vmLoop env td evs = some out → out.eff = noEff := by
  intro evs
  induction evs with
  | nil => intro out h; cases h
  | cons e rest ih =>
    intro out h
    rcases e with ⟨fs, ns⟩
    cases fs
    · rw [vmLoop] at h
      repeat' split at h
      all_goals try cases h
      all_goals rfl
    · rw [vmLoop] at h
      exact ih out h
    · rw [vmLoop] at h
      repeat' split at h
      all_goals try cases h
      all_goals rfl

/-- `processVersionMismatch` never touches the transfer history. -/
theorem processVersionMismatch_eff (env : ProcessVMEnv) (td : ThreadData)
    (out : StepOut) (h : processVersionMismatch env td = some out) :
    out.eff = noEff := by
  rw [processVersionMismatch] at h
  split_ifs at h
  all_goals try cases h
  all_goals try rfl
  exact vmLoop_eff env td env.funnelEvents out h

/-- C1 (amended): in any state-machine step, `markAllAcknowledged` runs only
in `PROCESS_DONE_CMD`, `PROCESS_WAIT_CMD` or `PROCESS_ERR_CMD` (the code
also marks everything acknowledged on a global-checkpoint ERR frame, which
the claim as stated omits), and a local checkpoint is applied to the
transfer history only in `READ_LOCAL_CHECKPOINT`; no other state marks
sources acknowledged. -/
theorem markAllAcknowledged_states (s : SenderState) (env : StepEnv)
    (td : ThreadData) (out : StepOut) (h : stepState s env td = some out) :
    (out.eff.markedAllAck = true →
      s = .PROCESS_DONE_CMD ∨ s = .PROCESS_WAIT_CMD ∨
        s = .PROCESS_ERR_CMD) ∧
    (out.eff.localCkptSet ≠ none → s = .READ_LOCAL_CHECKPOINT) := by
  cases s
  case CONNECT =>
    simp only [stepState, Option.some.injEq] at h
    subst h
    simp [connect_eff, noEff]
  case READ_LOCAL_CHECKPOINT =>
    simp only [stepState, Option.some.injEq] at h
    subst h
    exact ⟨fun hm => absurd hm (by simp [readLocalCheckPoint_eff]),
      fun _ => rfl⟩
  case SEND_SETTINGS =>
    simp only [stepState, Option.some.injEq] at h
    subst h
    simp [sendSettings_eff, noEff]
  case SEND_BLOCKS =>
    simp only [stepState] at h
    simp [sendBlocks_eff env.sendBlocksE td out h, noEff]
  case SEND_DONE_CMD =>
    simp only [stepState, Option.some.injEq] at h
    subst h
    simp [sendDoneCmd_eff, noEff]
  case SEND_SIZE_CMD =>
    simp only [stepState, Option.some.injEq] at h
    subst h
    simp [sendSizeCmd_eff, noEff]
  case CHECK_FOR_ABORT =>
    simp only [stepState, Option.some.injEq] at h
    subst h
    simp [checkForAbort_eff, noEff]
  case READ_FILE_CHUNKS =>
    simp only [stepState] at h
    have h2 := readFileChunks_eff env.readFileChunksE td out h
    simp [h2.1, h2.2]
  case READ_RECEIVER_CMD =>
    simp only [stepState] at h
    simp [readReceiverCmd_eff env.readReceiverCmdE td out h, noEff]
  case PROCESS_DONE_CMD =>
    simp only [stepState, Option.some.injEq] at h
    subst h
    exact ⟨fun _ => Or.inl rfl,
      fun hl => absurd (processDoneCmd_eff env.processDoneE td) hl⟩
  case PROCESS_WAIT_CMD =>
    simp only [stepState, Option.some.injEq] at h
    subst h
    exact ⟨fun _ => Or.inr (Or.inl rfl), fun hl => absurd rfl hl⟩
  case PROCESS_ERR_CMD =>
    simp only [stepState, Option.some.injEq] at h
    subst h
    exact ⟨fun _ => Or.inr (Or.inr rfl),
      fun hl => absurd (processErrCmd_eff env.processErrE td) hl⟩
  case PROCESS_ABORT_CMD =>
    simp only [stepState, Option.some.injEq] at h
    subst h
    exact ⟨fun hm => absurd hm
        (by simp [(processAbortCmd_eff env.processAbortE td).1]),
      fun hl => absurd (processAbortCmd_eff env.processAbortE td).2 hl⟩
  case PROCESS_VERSION_MISMATCH =>
    simp only [stepState] at h
    simp [processVersionMismatch_eff env.processVME td out h, noEff]
  case END =>
    simp only [stepState, Option.some.injEq] at h
    subst h
    simp [noEff]

/-- Thread data for the C1 counterexample and witness. -/
def c1Td : ThreadData :=
  { port := 5
    threadProtocolVersion := 30
    localErrorCode := .OK
    remoteErrorCode := .OK
    numReconnectWithoutProgress := 0
    totalSizeSent := false
    negotiatedProtocol := -1 }

/-- Concrete step environment for the C1 counterexample and witness; the
`PROCESS_ERR_CMD` inputs decode one global checkpoint `{5, 1, 2, 3}`. -/
def c1StepEnv : StepEnv :=
  { connectE :=
      { hasSocket := false
        socketNonRetryableErr := .OK
        maxTransferRetries := 3
        connectAt := fun _ => .OK
        abortAt := fun _ => .OK
        maxRetriesOpt := 3
        threadAbortCode := .OK }
    readLocalCkptE :=
      { maxLocalCheckpointLength := 21
        numRead := 21
        decoded := none
        setLocalCheckpointRes := .OK }
    sendSettingsE :=
      { sendFileChunks := false
        encodedOff := 10
        kMinBufLength := 256
        writeRes := 10 }
    sendBlocksE :=
      { receiverProgressReportVersion := 25
        fileDiscoveryFinished := false
        hasNextSource := false
        sourceEnv :=
          { headerLen := 4
            headerWriteRes := 4
            expectedSize := 0
            chunks := []
            hasThrottler := false
            footerType := .NO_FOOTER
            footerLen := 0
            footerWriteRes := 0 }
        addSourceOk := true }
    sendDoneE := { len := 256, writeRes := 256 }
    sendSizeE := { len := 10, writeRes := 10 }
    checkAbortE := { readRes := 1, cmd := .ABORT_CMD }
    readFileChunksE :=
      { firstReadRes := 1
        cmd := .WAIT_CMD
        fileChunksReceived := false
        spurious :=
          { maxLocalCheckpointLength := 21, numRead := 20, decoded := none }
        chunksCmdReadRes := 10
        kChunksCmdLen := 10
        numFiles := 0
        chunkReads := []
        ackWriteRes := 1 }
    readReceiverCmdE :=
      { drain :=
          { initialUnacked := 0
            readRes := fun _ => 1
            abortCode := fun _ => .OK
            readErrCode := fun _ => .OK
            unackedAfter := fun _ => 0
            finalReadRes := 1 }
        cmd := .DONE_CMD
        spurious :=
          { maxLocalCheckpointLength := 21, numRead := 20, decoded := none } }
    processDoneE := { doneAckWriteRes := 1, expectEndOfStreamRes := .OK }
    processErrE :=
      { lenReadOk := true
        bodyReadOk := true
        decoded := some [⟨5, 1, 2, 3⟩] }
    processAbortE :=
      { kAbortLength := 13
        numRead := 13
        negotiatedProtocol := 28
        remoteError := .ABORT
        checkpointSeqId := 0
        negotiateProtocolRes := 28 }
    processVME :=
      { initialNegStatus := .V_MISMATCH_WAIT
        funnelEvents := []
        handleVersionMismatchRes := .OK
        negotiatedProtocols := [28]
        parentProtocolVersion := 28 } }

/-- C1 counterexample: a `PROCESS_ERR_CMD` step calls `markAllAcknowledged`
(the code treats a global-checkpoint ERR frame like DONE/WAIT and first
marks every dispatched source acknowledged), yet `PROCESS_ERR_CMD` is
neither `PROCESS_DONE_CMD` nor `PROCESS_WAIT_CMD` and no local checkpoint
is applied in that step — so the claim's list of marking events is
incomplete. -/
theorem processErrCmd_marks_ack_counterexample :
    stepState .PROCESS_ERR_CMD c1StepEnv c1Td
      = some ⟨.SEND_BLOCKS, c1Td,
          { markedAllAck := true, globalCkpts := [⟨5, 1, 2, 3⟩] }⟩ ∧
    SenderState.PROCESS_ERR_CMD ≠ .PROCESS_DONE_CMD ∧
    SenderState.PROCESS_ERR_CMD ≠ .PROCESS_WAIT_CMD ∧
    ({ markedAllAck := true, globalCkpts := [⟨5, 1, 2, 3⟩] }
        : Effects).localCkptSet = none := by
  refine ⟨by decide, by decide, by decide, rfl⟩

/-- Witness for C1 (amended), at a concrete `PROCESS_WAIT_CMD` step. -/
theorem markAllAcknowledged_states_witness :
    stepState .PROCESS_WAIT_CMD c1StepEnv c1Td
      = some ⟨.READ_RECEIVER_CMD, c1Td, { markedAllAck := true }⟩ ∧
    (SenderState.PROCESS_WAIT_CMD = .PROCESS_DONE_CMD ∨
      SenderState.PROCESS_WAIT_CMD = .PROCESS_WAIT_CMD ∨
      SenderState.PROCESS_WAIT_CMD = .PROCESS_ERR_CMD) := by
  have heq : stepState .PROCESS_WAIT_CMD c1StepEnv c1Td
      = some ⟨.READ_RECEIVER_CMD, c1Td, { markedAllAck := true }⟩ := by
    decide
  exact ⟨heq, (markAllAcknowledged_states .PROCESS_WAIT_CMD c1StepEnv c1Td
    ⟨.READ_RECEIVER_CMD, c1Td, { markedAllAck := true }⟩ heq).1 rfl⟩
